import Mathlib

/-! # Layout builder of the player (`MainBuilder`, `MediaFactory`)

A shallow embedding of `src/player/creators/MainBuilder.cpp` and
`src/player/creators/MediaFactory.cpp`.

* `xlf_node` is the property tree the builder walks: a text value and an ordered list of
  named children, with the lookups the code uses (`get_child`, `get_child_optional`,
  `get` with a default, `get_value`).
* A C++ exception is an `Except.error`; a function that can throw returns `Except XlfError _`.
* Everything the two files call but do not define (the `ResourcesXlf` accessors, the
  concrete `doCreate` of each factory, the `GetMediaPosition` visitor, the text-to-value
  translators of the property tree, the resource directory) is a field of `Env`, so that the
  theorems hold for every implementation of those collaborators.  `specEnv` is one concrete
  `Env`, used to evaluate the builder on explicit documents.
-/

namespace XiboLayout

/-! ## Property tree -/

/-- The exceptions the builder can surface. `ptree_bad_path` is what `get_child` throws for a
missing child, `ptree_bad_data` what a typed read without default throws for an unreadable
value, `external` stands for anything thrown by code outside the two files. -/
inductive XlfError where
  | ptree_bad_path (key : String)
  | ptree_bad_data (key : String)
  | external (what : String)
  deriving DecidableEq, Repr

/-- The type `xlf_node` of the sources: a property tree node, carrying its own text and the
ordered sequence of its `(name, child)` pairs. -/
inductive xlf_node where
  | mk (data : String) (children : List (String × xlf_node))
  deriving Repr

/-- The text stored in the node itself. -/
def xlf_node.data : xlf_node → String
  | .mk d _ => d

/-- The `(name, child)` pairs of the node, in document order; this is what
`for (auto [nodeName, node] : parent)` iterates over. -/
def xlf_node.children : xlf_node → List (String × xlf_node)
  | .mk _ c => c

/-- Lookup `get_child_optional(key)` for a single-key path: the first child with that name,
if any. -/
def xlf_node.get_child_optional (n : xlf_node) (key : String) : Option xlf_node :=
  (n.children.find? (fun p => p.1 == key)).map Prod.snd

/-- Lookup `get_child(key)` for a single-key path: as `get_child_optional`, but a missing
child throws. -/
def xlf_node.get_child (n : xlf_node) (key : String) : Except XlfError xlf_node :=
  match n.get_child_optional key with
  | some c => .ok c
  | none => .error (.ptree_bad_path key)

/-- Typed read `get<T>(key, default)`: the default is returned both when the child is
missing and when its text does not translate. -/
def xlf_node.get_default {α : Type} (translate : String → Option α) (n : xlf_node)
    (key : String) (dflt : α) : α :=
  match n.get_child_optional key with
  | some c => (translate c.data).getD dflt
  | none => dflt

/-- Typed read `get<T>(key)` without default: a missing child or an untranslatable text
throws. -/
def xlf_node.get_required {α : Type} (translate : String → Option α) (n : xlf_node)
    (key : String) : Except XlfError α :=
  match n.get_child_optional key with
  | some c =>
    match translate c.data with
    | some v => .ok v
    | none => .error (.ptree_bad_data key)
  | none => .error (.ptree_bad_path key)

/-! ## Built objects -/

/-- The four concrete factories `buildMedia` chooses from. -/
inductive FactoryKind where
  | ImageFactory
  | VideoFactory
  | AudioFactory
  | WebViewFactory
  deriving DecidableEq, Repr

/-- The state of a `MediaFactory` after its constructor ran, together with the concrete
class that was instantiated. -/
structure MediaFactory where
  kind : FactoryKind
  m_parentNode : xlf_node
  m_attrs : xlf_node
  m_options : xlf_node
  m_audioNode : Option xlf_node
  deriving Repr

/-- Modelled from the spec: the class `Audio` (media/Audio.hpp is not among the sources), as
the record of what `createAudioFromNode` sets on it: the path it is constructed with and the
arguments of `setVolume`, `setLooped` and `setDuration`. -/
structure Audio where
  path : String
  volume : Int
  looped : Bool
  duration : Int
  deriving DecidableEq, Repr

/-- Modelled from the spec: an `IMedia` object (media/IMedia.hpp is not among the sources) as
seen by the builder: the factory that made it, the nodes it was made from, the duration it
reports, and the companion passed to `attachMedia` (`none` for a null pointer). -/
structure Media where
  kind : FactoryKind
  parentNode : xlf_node
  attrs : xlf_node
  options : xlf_node
  duration : Int
  attached : Option Audio
  deriving Repr

/-- Modelled from the spec: `IMedia::attachMedia`, which stores the companion it is given. -/
def Media.attachMedia (m : Media) (a : Option Audio) : Media :=
  { m with attached := a }

/-- A visible media with its position inside the container. -/
structure MediaWithPos where
  media : Media
  x : Int
  y : Int
  deriving Repr

/-- Modelled from the spec: the product of `MediaContainerBuilder::build`
(creators/MediaContainerBuilder.hpp is not among the sources), a plain record of the options
the builder was given. -/
structure MediaContainer where
  width : Int
  height : Int
  zorder : Int
  loop : Bool
  visibleMedia : List MediaWithPos
  invisibleMedia : List Media
  deriving Repr

/-- A container with its position inside the layout. -/
structure MediaContainerWithPos where
  container : MediaContainer
  x : Int
  y : Int
  deriving Repr

/-- Modelled from the spec: the product of `BackgroundBuilder::build`
(creators/BackgroundBuilder.hpp is not among the sources), a plain record of the options the
builder was given. -/
structure Background where
  width : Int
  height : Int
  path : String
  color : String
  deriving DecidableEq, Repr

/-- Modelled from the spec: the product of `MainLayoutBuilder::build`
(creators/MainLayoutBuilder.hpp is not among the sources), a plain record of the options the
builder was given. -/
structure MainLayout where
  width : Int
  height : Int
  background : Background
  mediaContainers : List MediaContainerWithPos
  deriving Repr

/-- One use of the `GetMediaPosition` visitor: the dimensions it was constructed with and
the media it was applied to. -/
structure ResolverCall where
  containerWidth : Int
  containerHeight : Int
  media : Media
  deriving Repr

/-! ## Constants and collaborators that the two files use but do not define -/

/-- Modelled from the spec: `MIN_VOLUME`, the low end of the 0–100 volume scale; the header
declaring it is not among the sources. -/
def MIN_VOLUME : Int := 0

/-- Modelled from the spec: `MAX_VOLUME`, the high end of the 0–100 volume scale and the
default of the `volume` attribute; the header declaring it is not among the sources. -/
def MAX_VOLUME : Int := 100

/-- Modelled from the spec: `ResourcesXlf::Layout::NodeName` (utils/Resources.hpp is not
among the sources), the name of the top-level layout node. -/
def LayoutXlf.NodeName : String := "layout"

/-- Modelled from the spec: `ResourcesXlf::Region::NodeName` (utils/Resources.hpp is not
among the sources), the name of a region child. -/
def RegionXlf.NodeName : String := "region"

/-- Modelled from the spec: `ResourcesXlf::Media::NodeName` (utils/Resources.hpp is not
among the sources), the name of a media child. -/
def MediaXlf.NodeName : String := "media"

/-- Modelled from the spec: `ResourcesXlf::Media::ImageType` (utils/Resources.hpp is not
among the sources). -/
def MediaXlf.ImageType : String := "image"

/-- Modelled from the spec: `ResourcesXlf::Media::VideoType` (utils/Resources.hpp is not
among the sources). -/
def MediaXlf.VideoType : String := "video"

/-- Modelled from the spec: `ResourcesXlf::Media::AudioType` (utils/Resources.hpp is not
among the sources). -/
def MediaXlf.AudioType : String := "audio"

/-- The collaborators of the two source files. Each field stands for a function that the
sources call and that is defined elsewhere; a field returning `Except` may throw. -/
structure Env where
  /-- The accessor `LayoutXlf::width`. -/
  layoutWidth : xlf_node → Except XlfError Int
  /-- The accessor `LayoutXlf::height`. -/
  layoutHeight : xlf_node → Except XlfError Int
  /-- The accessor `LayoutXlf::backgroundPath`. -/
  backgroundPath : xlf_node → Except XlfError String
  /-- The accessor `LayoutXlf::backgroundColor`. -/
  backgroundColor : xlf_node → Except XlfError String
  /-- The accessor `RegionXlf::left`. -/
  regionLeft : xlf_node → Except XlfError Int
  /-- The accessor `RegionXlf::top`. -/
  regionTop : xlf_node → Except XlfError Int
  /-- The accessor `RegionXlf::width`. -/
  regionWidth : xlf_node → Except XlfError Int
  /-- The accessor `RegionXlf::height`. -/
  regionHeight : xlf_node → Except XlfError Int
  /-- The accessor `RegionXlf::zindex`. -/
  regionZindex : xlf_node → Except XlfError Int
  /-- The accessor `RegionXlf::loop`. -/
  regionLoop : xlf_node → Except XlfError Bool
  /-- The accessor `MediaXlf::type`. -/
  mediaType : xlf_node → Except XlfError String
  /-- The translator behind `get<bool>`: `none` when the text is not a boolean. -/
  toBool : String → Option Bool
  /-- The translator behind `get<int>`: `none` when the text is not an `int`. -/
  toInt : String → Option Int
  /-- The function `Resources::directory()`. -/
  directory : String
  /-- The join `operator/` of two paths. -/
  joinPath : String → String → String
  /-- The `doCreate` of the concrete factory of the given kind, run on the factory's parent
  node, attributes and options: the duration the fresh media object reports, or the
  exception raised while creating it. -/
  doCreate : FactoryKind → xlf_node → xlf_node → xlf_node → Except XlfError Int
  /-- The visitor `GetMediaPosition(containerWidth, containerHeight)` applied to a media:
  the pair `(getMediaX(), getMediaY())`. -/
  getMediaPosition : Int → Int → Media → Int × Int

/-! ## `MediaFactory.cpp` -/

/-- The constructor `MediaFactory::MediaFactory(parentNode, mediaNode)`, for the concrete
class `kind`: the attributes and the options are required, the audio child is optional. -/
def MediaFactory.new (kind : FactoryKind) (parentNode mediaNode : xlf_node) :
    Except XlfError MediaFactory := do
  let m_attrs ← mediaNode.get_child "<xmlattr>"
  let m_options ← mediaNode.get_child "options"
  let m_audioNode := mediaNode.get_child_optional "audio"
  pure { kind := kind, m_parentNode := parentNode, m_attrs := m_attrs,
         m_options := m_options, m_audioNode := m_audioNode }

/-- The method `MediaFactory::createAudioFromNode(parentDuration)`; `none` is the null
pointer returned when the factory has no audio node. -/
def MediaFactory.createAudioFromNode (env : Env) (f : MediaFactory) (parentDuration : Int) :
    Except XlfError (Option Audio) :=
  match f.m_audioNode with
  | some audioNode => do
    let uriNode ← audioNode.get_child "uri"
    let attrs ← uriNode.get_child "<xmlattr>"
    let path := env.joinPath env.directory uriNode.data
    let mute := attrs.get_default env.toBool "mute" false
    let looped := attrs.get_default env.toBool "loop" false
    let volume := attrs.get_default env.toInt "volume" MAX_VOLUME
    let audio : Audio :=
      { path := path, volume := if mute then MIN_VOLUME else volume, looped := looped,
        duration := parentDuration }
    pure (some audio)
  | none => pure none

/-- The virtual `doCreate()`: the media object of the concrete factory, with nothing attached
yet. -/
def MediaFactory.doCreate (env : Env) (f : MediaFactory) : Except XlfError Media := do
  let duration ← env.doCreate f.kind f.m_parentNode f.m_attrs f.m_options
  pure { kind := f.kind, parentNode := f.m_parentNode, attrs := f.m_attrs,
         options := f.m_options, duration := duration, attached := none }

/-- The method `MediaFactory::create()`. -/
def MediaFactory.create (env : Env) (f : MediaFactory) : Except XlfError Media := do
  let media ← f.doCreate env
  let audio ← f.createAudioFromNode env media.duration
  pure (media.attachMedia audio)

/-! ## `MainBuilder.cpp` -/

namespace MainBuilder

/-- The method `MainBuilder::buildMedia(containerNode, mediaNode)`. -/
def buildMedia (env : Env) (containerNode mediaNode : xlf_node) : Except XlfError Media := do
  let type ← env.mediaType mediaNode
  let factory ←
    if type = MediaXlf.ImageType then
      MediaFactory.new .ImageFactory containerNode mediaNode
    else if type = MediaXlf.VideoType then
      MediaFactory.new .VideoFactory containerNode mediaNode
    else if type = MediaXlf.AudioType then
      MediaFactory.new .AudioFactory containerNode mediaNode
    else
      MediaFactory.new .WebViewFactory containerNode mediaNode
  factory.create env

/-- The loop of `MainBuilder::collectInvisibleMedia` over the remaining children, `media`
being the vector filled so far. -/
def collectInvisibleMediaLoop (env : Env) (containerNode : xlf_node) :
    List (String × xlf_node) → List Media → Except XlfError (List Media)
  | [], media => pure media
  | (nodeName, mediaNode) :: rest, media =>
    if nodeName = MediaXlf.NodeName then do
      let type ← env.mediaType mediaNode
      if type = MediaXlf.AudioType then do
        let builtMedia ← buildMedia env containerNode mediaNode
        collectInvisibleMediaLoop env containerNode rest (media ++ [builtMedia])
      else
        collectInvisibleMediaLoop env containerNode rest media
    else
      collectInvisibleMediaLoop env containerNode rest media

/-- The method `MainBuilder::collectInvisibleMedia(containerNode)`. -/
def collectInvisibleMedia (env : Env) (containerNode : xlf_node) :
    Except XlfError (List Media) :=
  collectInvisibleMediaLoop env containerNode containerNode.children []

/-- The loop of `MainBuilder::collectVisibleMedia` over the remaining children: `media` is
the vector filled so far, `calls` the uses of the position visitor so far. -/
def collectVisibleMediaLoop (env : Env) (containerNode : xlf_node) :
    List (String × xlf_node) → List MediaWithPos → List ResolverCall →
      Except XlfError (List MediaWithPos × List ResolverCall)
  | [], media, calls => pure (media, calls)
  | (nodeName, mediaNode) :: rest, media, calls =>
    if nodeName = MediaXlf.NodeName then do
      let type ← env.mediaType mediaNode
      if type ≠ MediaXlf.AudioType then do
        let builtMedia ← buildMedia env containerNode mediaNode
        let containerWidth ← env.regionWidth containerNode
        let containerHeight ← env.regionHeight containerNode
        let visitor := env.getMediaPosition containerWidth containerHeight builtMedia
        collectVisibleMediaLoop env containerNode rest
          (media ++ [{ media := builtMedia, x := visitor.1, y := visitor.2 }])
          (calls ++ [{ containerWidth := containerWidth, containerHeight := containerHeight,
                       media := builtMedia }])
      else
        collectVisibleMediaLoop env containerNode rest media calls
    else
      collectVisibleMediaLoop env containerNode rest media calls

/-- The method `MainBuilder::collectVisibleMedia(containerNode)`, returning next to the
vector the uses it made of the position visitor, in order. -/
def collectVisibleMediaTraced (env : Env) (containerNode : xlf_node) :
    Except XlfError (List MediaWithPos × List ResolverCall) :=
  collectVisibleMediaLoop env containerNode containerNode.children [] []

/-- The method `MainBuilder::collectVisibleMedia(containerNode)`. -/
def collectVisibleMedia (env : Env) (containerNode : xlf_node) :
    Except XlfError (List MediaWithPos) :=
  Prod.fst <$> collectVisibleMediaTraced env containerNode

/-- The method `MainBuilder::buildContainer(containerNode)`. -/
def buildContainer (env : Env) (containerNode : xlf_node) : Except XlfError MediaContainer := do
  let width ← env.regionWidth containerNode
  let height ← env.regionHeight containerNode
  let zorder ← env.regionZindex containerNode
  let loop ← env.regionLoop containerNode
  let visibleMedia ← collectVisibleMedia env containerNode
  let invisibleMedia ← collectInvisibleMedia env containerNode
  pure { width := width, height := height, zorder := zorder, loop := loop,
         visibleMedia := visibleMedia, invisibleMedia := invisibleMedia }

/-- The loop of `MainBuilder::collectContainers` over the remaining children, `containers`
being the vector filled so far. -/
def collectContainersLoop (env : Env) :
    List (String × xlf_node) → List MediaContainerWithPos →
      Except XlfError (List MediaContainerWithPos)
  | [], containers => pure containers
  | (nodeName, containerNode) :: rest, containers =>
    if nodeName = RegionXlf.NodeName then do
      let x ← env.regionLeft containerNode
      let y ← env.regionTop containerNode
      let container ← buildContainer env containerNode
      collectContainersLoop env rest (containers ++ [{ container := container, x := x, y := y }])
    else
      collectContainersLoop env rest containers

/-- The method `MainBuilder::collectContainers(layoutNode)`. -/
def collectContainers (env : Env) (layoutNode : xlf_node) :
    Except XlfError (List MediaContainerWithPos) :=
  collectContainersLoop env layoutNode.children []

/-- The method `MainBuilder::buildBackground(layoutNode)`. -/
def buildBackground (env : Env) (layoutNode : xlf_node) : Except XlfError Background := do
  let width ← env.layoutWidth layoutNode
  let height ← env.layoutHeight layoutNode
  let path ← env.backgroundPath layoutNode
  let color ← env.backgroundColor layoutNode
  pure { width := width, height := height, path := path, color := color }

/-- The method `MainBuilder::buildLayout(layoutNode)`. -/
def buildLayout (env : Env) (layoutNode : xlf_node) : Except XlfError MainLayout := do
  let width ← env.layoutWidth layoutNode
  let height ← env.layoutHeight layoutNode
  let background ← buildBackground env layoutNode
  let mediaContainers ← collectContainers env layoutNode
  pure { width := width, height := height, background := background,
         mediaContainers := mediaContainers }

/-- The method `MainBuilder::buildLayoutWithChildren(tree)`. -/
def buildLayoutWithChildren (env : Env) (tree : xlf_node) : Except XlfError MainLayout := do
  let layoutNode ← tree.get_child LayoutXlf.NodeName
  buildLayout env layoutNode

end MainBuilder

/-! ## A concrete environment -/

/-- The value of a run of decimal digits, `acc` being the value read so far; `none` when a
character is not a digit. -/
def readDigits : List Char → Nat → Option Nat
  | [], acc => some acc
  | c :: cs, acc =>
    if 48 ≤ c.toNat ∧ c.toNat ≤ 57 then readDigits cs (acc * 10 + (c.toNat - 48)) else none

/-- A reading of decimal `int` text: an optional sign and at least one digit, within the
range of a 32-bit `int`. It covers plain numerals only (no surrounding blanks). -/
def readInt (s : String) : Option Int :=
  match s.toList with
  | [] => none
  | '-' :: cs =>
    if cs = [] then none
    else (readDigits cs 0).bind (fun n => if n ≤ 2147483648 then some (-(n : Int)) else none)
  | '+' :: cs =>
    if cs = [] then none
    else (readDigits cs 0).bind (fun n => if n ≤ 2147483647 then some (n : Int) else none)
  | cs => (readDigits cs 0).bind (fun n => if n ≤ 2147483647 then some (n : Int) else none)

/-- A reading of boolean text: the numerals `0`, `1` and the words `false`, `true`. -/
def readBool (s : String) : Option Bool :=
  if s = "true" ∨ s = "1" then some true
  else if s = "false" ∨ s = "0" then some false
  else none

/-- Modelled from the spec: a required typed attribute of a node, read from its attribute
set `<xmlattr>` (the `ResourcesXlf` accessors live in utils/Resources.hpp, which is not among
the sources); a missing attribute set, a missing attribute or an unreadable value throws. -/
def requiredAttr {α : Type} (translate : String → Option α) (key : String) (node : xlf_node) :
    Except XlfError α := do
  let attrs ← node.get_child "<xmlattr>"
  attrs.get_required translate key

/-- Modelled from the spec: an optional typed attribute of a node, read from its attribute
set `<xmlattr>` (the `ResourcesXlf` accessors live in utils/Resources.hpp, which is not among
the sources), with the default for a missing or unreadable value. -/
def optionalAttr {α : Type} (translate : String → Option α) (key : String) (dflt : α)
    (node : xlf_node) : Except XlfError α := do
  let attrs ← node.get_child "<xmlattr>"
  pure (attrs.get_default translate key dflt)

/-- Modelled from the spec: the collaborators as the interface section describes them. The
layout has required integer `width` and `height` and optional background `path` and `color`;
a region has integer `left`, `top`, `width`, `height`, an integer z-order and a boolean loop
flag; a media node has a `type` attribute. The spec leaves `doCreate` and the placement rule
of `GetMediaPosition` to the collaborators: here a media reports the `duration` attribute
(0 when absent) and is placed at the container origin. -/
def specEnv : Env where
  layoutWidth := requiredAttr readInt "width"
  layoutHeight := requiredAttr readInt "height"
  backgroundPath := optionalAttr some "path" ""
  backgroundColor := optionalAttr some "color" ""
  regionLeft := requiredAttr readInt "left"
  regionTop := requiredAttr readInt "top"
  regionWidth := requiredAttr readInt "width"
  regionHeight := requiredAttr readInt "height"
  regionZindex := optionalAttr readInt "zindex" 0
  regionLoop := optionalAttr readBool "loop" false
  mediaType := requiredAttr some "type"
  toBool := readBool
  toInt := readInt
  directory := "resources"
  joinPath := fun dir file => dir ++ "/" ++ file
  doCreate := fun _ _ attrs _ => .ok (attrs.get_default readInt "duration" 0)
  getMediaPosition := fun _ _ _ => (0, 0)

/-- An attribute set `<xmlattr>` with the given `(name, text)` pairs. -/
def xmlattr (kvs : List (String × String)) : String × xlf_node :=
  ("<xmlattr>", .mk "" (kvs.map (fun kv => (kv.1, .mk kv.2 []))))

/-- An element with the given name, attributes and further children, and no text. -/
def element (name : String) (attrs : List (String × String))
    (children : List (String × xlf_node)) : String × xlf_node :=
  (name, .mk "" (xmlattr attrs :: children))


/-! ## Vocabulary of the properties -/

/-- The children with the media node name among `(name, child)` pairs, in document order. -/
def mediaNodes (children : List (String × xlf_node)) : List xlf_node :=
  (children.filter (fun p => p.1 = MediaXlf.NodeName)).map Prod.snd

/-- The media children of a region, in document order. -/
def mediaChildren (containerNode : xlf_node) : List xlf_node :=
  mediaNodes containerNode.children

/-- The children with the region node name among `(name, child)` pairs, in document order. -/
def regionNodes (children : List (String × xlf_node)) : List xlf_node :=
  (children.filter (fun p => p.1 = RegionXlf.NodeName)).map Prod.snd

/-- The region children of a layout, in document order. -/
def regionChildren (layoutNode : xlf_node) : List xlf_node :=
  regionNodes layoutNode.children

/-- The node declares the audio type. -/
def isAudioNode (env : Env) (n : xlf_node) : Bool :=
  match env.mediaType n with
  | .ok t => decide (t = MediaXlf.AudioType)
  | .error _ => false

/-- The node declares a type, and it is not the audio type. -/
def isVisibleNode (env : Env) (n : xlf_node) : Bool :=
  match env.mediaType n with
  | .ok t => decide (t ≠ MediaXlf.AudioType)
  | .error _ => false

/-- What one iteration of the visible loop records for a built media: the visitor is
constructed from the region's own width and height, applied to that media, and its result
is the stored position. -/
def Resolved (env : Env) (c : xlf_node) (m : MediaWithPos) (call : ResolverCall) : Prop :=
  ∃ w h, env.regionWidth c = .ok w ∧ env.regionHeight c = .ok h ∧
    call = { containerWidth := w, containerHeight := h, media := m.media } ∧
    m.x = (env.getMediaPosition w h m.media).1 ∧ m.y = (env.getMediaPosition w h m.media).2

/-- The dispatch table of the factory section of the spec: the concrete factory for a
declared type. -/
def dispatchTable (type : String) : FactoryKind :=
  if type = "image" then .ImageFactory
  else if type = "video" then .VideoFactory
  else if type = "audio" then .AudioFactory
  else .WebViewFactory

/-- A volume on the 0–100 scale. -/
def onVolumeScale (v : Int) : Prop :=
  MIN_VOLUME ≤ v ∧ v ≤ MAX_VOLUME

/-- The track with its duration blanked. -/
def Audio.shape (a : Audio) : Audio :=
  { a with duration := 0 }

/-- The media with what `doCreate` reports blanked: its duration and the duration handed on
to its companion. -/
def Media.shape (m : Media) : Media :=
  { m with duration := 0, attached := m.attached.map Audio.shape }

/-- The visible item with its media's shape and its position blanked. -/
def MediaWithPos.shape (v : MediaWithPos) : MediaWithPos :=
  { media := v.media.shape, x := 0, y := 0 }

/-- The container with the shapes of its media, in order. -/
def MediaContainer.shape (c : MediaContainer) : MediaContainer :=
  { c with visibleMedia := c.visibleMedia.map MediaWithPos.shape,
           invisibleMedia := c.invisibleMedia.map Media.shape }

/-- The placed container with the shape of its container. -/
def MediaContainerWithPos.shape (c : MediaContainerWithPos) : MediaContainerWithPos :=
  { c with container := c.container.shape }

/-- The layout with the shapes of its containers, in order. -/
def MainLayout.shape (l : MainLayout) : MainLayout :=
  { l with mediaContainers := l.mediaContainers.map MediaContainerWithPos.shape }

/-- Two runs end alike: both throw the same exception, or both return and the results are
related. -/
def ExceptRel {α β : Type} (R : α → β → Prop) :
    Except XlfError α → Except XlfError β → Prop
  | .ok a, .ok b => R a b
  | .error e₁, .error e₂ => e₁ = e₂
  | _, _ => False

/-! ## Sample documents -/

/-- An empty `options` child. -/
def sampleOptions : String × xlf_node :=
  ("options", .mk "" [])

/-- An audio child that is muted and declares volume 80. -/
def mutedAudioChild : String × xlf_node :=
  ("audio", .mk "" [("uri", .mk "a.mp3" [xmlattr [("mute", "true"), ("volume", "80")]])])

/-- An audio child that is not muted and declares volume 500. -/
def loudAudioChild : String × xlf_node :=
  ("audio", .mk "" [("uri", .mk "b.mp3" [xmlattr [("volume", "500")]])])

/-- An image media with the muted audio child. -/
def sampleImageNode : String × xlf_node :=
  element "media" [("type", "image"), ("duration", "10")] [sampleOptions, mutedAudioChild]

/-- An audio media without audio child. -/
def sampleAudioNode : String × xlf_node :=
  element "media" [("type", "audio"), ("duration", "30")] [sampleOptions]

/-- A media of a type without a factory of its own, with the loud audio child. -/
def sampleTickerNode : String × xlf_node :=
  element "media" [("type", "ticker")] [sampleOptions, loudAudioChild]

/-- A region with three media children and one child of another name. -/
def sampleRegion : String × xlf_node :=
  element "region"
    [("left", "10"), ("top", "5"), ("width", "100"), ("height", "50"), ("zindex", "2")]
    [sampleImageNode, ("tag", .mk "x" []), sampleAudioNode, sampleTickerNode]

/-- A region without media, declared left of the layout origin, with a lower z-order than
`sampleRegion`. -/
def negativeRegion : String × xlf_node :=
  element "region"
    [("left", "-10"), ("top", "0"), ("width", "20"), ("height", "20"), ("zindex", "1")] []

/-- A layout with two regions. -/
def sampleLayout : String × xlf_node :=
  element "layout" [("width", "1920"), ("height", "1080"), ("color", "#000")]
    [sampleRegion, ("tags", .mk "" []), negativeRegion]

/-- A layout without regions. -/
def emptyLayout : String × xlf_node :=
  element "layout" [("width", "640"), ("height", "480")] [("tags", .mk "" [])]

/-- The media built from `sampleImageNode` inside `sampleRegion`. -/
def sampleImage : Media :=
  { kind := .ImageFactory, parentNode := sampleRegion.2,
    attrs := (xmlattr [("type", "image"), ("duration", "10")]).2, options := sampleOptions.2,
    duration := 10,
    attached := some { path := "resources/a.mp3", volume := 0, looped := false,
                       duration := 10 } }

/-- The media built from `sampleAudioNode` inside `sampleRegion`. -/
def sampleAudio : Media :=
  { kind := .AudioFactory, parentNode := sampleRegion.2,
    attrs := (xmlattr [("type", "audio"), ("duration", "30")]).2, options := sampleOptions.2,
    duration := 30, attached := none }

/-- The media built from `sampleTickerNode` inside `sampleRegion`. -/
def sampleTicker : Media :=
  { kind := .WebViewFactory, parentNode := sampleRegion.2,
    attrs := (xmlattr [("type", "ticker")]).2, options := sampleOptions.2,
    duration := 0,
    attached := some { path := "resources/b.mp3", volume := 500, looped := false,
                       duration := 0 } }

/-- The visible sequence of `sampleRegion`. -/
def sampleVisible : List MediaWithPos :=
  [{ media := sampleImage, x := 0, y := 0 }, { media := sampleTicker, x := 0, y := 0 }]

/-- The uses of the position visitor while collecting `sampleVisible`. -/
def sampleCalls : List ResolverCall :=
  [{ containerWidth := 100, containerHeight := 50, media := sampleImage },
   { containerWidth := 100, containerHeight := 50, media := sampleTicker }]

/-- The container built from `sampleRegion`. -/
def sampleContainer : MediaContainer :=
  { width := 100, height := 50, zorder := 2, loop := false,
    visibleMedia := sampleVisible, invisibleMedia := [sampleAudio] }

/-- The container built from `negativeRegion`. -/
def negativeContainer : MediaContainer :=
  { width := 20, height := 20, zorder := 1, loop := false,
    visibleMedia := [], invisibleMedia := [] }

/-- A layout whose only region is `sampleRegion`. -/
def positiveLayout : String × xlf_node :=
  element "layout" [("width", "800"), ("height", "600")] [sampleRegion]

/-- A document without top-level layout node. -/
def noLayoutDocument : xlf_node :=
  .mk "" [("display", .mk "" [sampleRegion])]

/-- An audio child whose uri node has no attribute set at all. -/
def bareAudioChild : String × xlf_node :=
  ("audio", .mk "" [("uri", .mk "c.mp3" [])])

/-- An audio child whose uri node has an attribute set without `mute`, `loop` or `volume`. -/
def plainAudioChild : String × xlf_node :=
  ("audio", .mk "" [("uri", .mk "d.mp3" [xmlattr [("id", "7")]])])

/-- An audio child without uri node. -/
def noUriAudioChild : String × xlf_node :=
  ("audio", .mk "" [])

/-- A video media with the bare audio child. -/
def bareAudioMediaNode : String × xlf_node :=
  element "media" [("type", "video"), ("duration", "20")] [sampleOptions, bareAudioChild]

/-- A video media with the plain audio child. -/
def plainAudioMediaNode : String × xlf_node :=
  element "media" [("type", "video"), ("duration", "20")] [sampleOptions, plainAudioChild]

/-- A video media whose audio child has no uri node. -/
def noUriMediaNode : String × xlf_node :=
  element "media" [("type", "video"), ("duration", "20")] [sampleOptions, noUriAudioChild]

/-- An audio media that itself carries the plain audio child. -/
def audioWithCompanionNode : String × xlf_node :=
  element "media" [("type", "audio"), ("duration", "15")] [sampleOptions, plainAudioChild]

/-- An image media without `options` child. -/
def noOptionsNode : String × xlf_node :=
  element "media" [("type", "image")] []

/-- A region holding an image and the audio media with a companion. -/
def companionRegion : String × xlf_node :=
  element "region"
    [("left", "0"), ("top", "0"), ("width", "40"), ("height", "30")]
    [sampleImageNode, audioWithCompanionNode]

/-- A region whose second media has no `options` child. -/
def brokenRegion : String × xlf_node :=
  element "region"
    [("left", "0"), ("top", "0"), ("width", "40"), ("height", "30")]
    [sampleAudioNode, noOptionsNode]

/-- A layout whose second region is `brokenRegion`. -/
def brokenLayout : String × xlf_node :=
  element "layout" [("width", "800"), ("height", "600")] [sampleRegion, brokenRegion]

/-- The media built from `audioWithCompanionNode` inside `companionRegion`. -/
def companionAudio : Media :=
  { kind := .AudioFactory, parentNode := companionRegion.2,
    attrs := (xmlattr [("type", "audio"), ("duration", "15")]).2, options := sampleOptions.2,
    duration := 15,
    attached := some { path := "resources/d.mp3", volume := 100, looped := false,
                       duration := 15 } }

/-- A document whose top-level layout node is `sampleLayout`. -/
def sampleDocument : xlf_node :=
  .mk "" [sampleLayout]


/-! ## Lemmas on the loops and the factory -/

open MainBuilder

theorem mediaNodes_cons_media (node : xlf_node) (rest : List (String × xlf_node)) :
    mediaNodes ((MediaXlf.NodeName, node) :: rest) = node :: mediaNodes rest := by
  simp [mediaNodes]

theorem mediaNodes_cons_other (name : String) (node : xlf_node)
    (rest : List (String × xlf_node)) (h : name ≠ MediaXlf.NodeName) :
    mediaNodes ((name, node) :: rest) = mediaNodes rest := by
  simp [mediaNodes, h]

theorem collectInvisibleMediaLoop_ok (env : Env) (c : xlf_node) :
    ∀ (children : List (String × xlf_node)) (acc out : List Media),
      collectInvisibleMediaLoop env c children acc = .ok out →
      (∀ n ∈ mediaNodes children, ∃ t, env.mediaType n = .ok t) ∧
      ∃ built, out = acc ++ built ∧
        List.Forall₂ (fun n m => buildMedia env c n = .ok m)
          ((mediaNodes children).filter (isAudioNode env)) built := by
  intro children
  induction children with
  | nil =>
    intro acc out h
    simp [collectInvisibleMediaLoop, pure, Except.pure] at h
    exact ⟨by simp [mediaNodes], [], by simp [h], by simp [mediaNodes]⟩
  | cons p rest ih =>
    obtain ⟨name, node⟩ := p
    intro acc out h
    by_cases hname : name = MediaXlf.NodeName
    · subst hname
      rw [mediaNodes_cons_media]
      cases ht : env.mediaType node with
      | error e => simp [collectInvisibleMediaLoop, ht, bind, Except.bind] at h
      | ok t =>
        by_cases hta : t = MediaXlf.AudioType
        · cases hb : buildMedia env c node with
          | error e => simp [collectInvisibleMediaLoop, ht, hta, hb, bind, Except.bind] at h
          | ok m =>
            simp [collectInvisibleMediaLoop, ht, hta, hb, bind, Except.bind] at h
            obtain ⟨hty, built, hout, hall⟩ := ih _ _ h
            refine ⟨?_, m :: built, by simp [hout], ?_⟩
            · intro n hn
              rcases List.mem_cons.mp hn with rfl | hn
              · exact ⟨t, ht⟩
              · exact hty n hn
            · have : isAudioNode env node = true := by simp [isAudioNode, ht, hta]
              simp [List.filter_cons, this, hb, hall]
        · simp [collectInvisibleMediaLoop, ht, hta, bind, Except.bind] at h
          obtain ⟨hty, built, hout, hall⟩ := ih _ _ h
          refine ⟨?_, built, hout, ?_⟩
          · intro n hn
            rcases List.mem_cons.mp hn with rfl | hn
            · exact ⟨t, ht⟩
            · exact hty n hn
          · have : isAudioNode env node = false := by simp [isAudioNode, ht, hta]
            simp [List.filter_cons, this, hall]
    · rw [mediaNodes_cons_other _ _ _ hname]
      simp [collectInvisibleMediaLoop, hname] at h
      exact ih _ _ h

theorem collectVisibleMediaLoop_ok (env : Env) (c : xlf_node) :
    ∀ (children : List (String × xlf_node)) (media : List MediaWithPos)
      (calls : List ResolverCall) (out : List MediaWithPos × List ResolverCall),
      collectVisibleMediaLoop env c children media calls = .ok out →
      (∀ n ∈ mediaNodes children, ∃ t, env.mediaType n = .ok t) ∧
      ∃ built builtCalls, out = (media ++ built, calls ++ builtCalls) ∧
        List.Forall₂ (fun n (m : MediaWithPos) => buildMedia env c n = .ok m.media)
          ((mediaNodes children).filter (isVisibleNode env)) built ∧
        List.Forall₂ (Resolved env c) built builtCalls := by
  intro children
  induction children with
  | nil =>
    intro media calls out h
    simp [collectVisibleMediaLoop, pure, Except.pure] at h
    exact ⟨by simp [mediaNodes], [], [], by simp [← h], by simp [mediaNodes], by simp⟩
  | cons p rest ih =>
    obtain ⟨name, node⟩ := p
    intro media calls out h
    by_cases hname : name = MediaXlf.NodeName
    · subst hname
      rw [mediaNodes_cons_media]
      cases ht : env.mediaType node with
      | error e => simp [collectVisibleMediaLoop, ht, bind, Except.bind] at h
      | ok t =>
        have hmem : ∀ (hty : ∀ n ∈ mediaNodes rest, ∃ t, env.mediaType n = .ok t),
            ∀ n ∈ node :: mediaNodes rest, ∃ t, env.mediaType n = .ok t := by
          intro hty n hn
          rcases List.mem_cons.mp hn with rfl | hn
          · exact ⟨t, ht⟩
          · exact hty n hn
        by_cases hta : t = MediaXlf.AudioType
        · simp [collectVisibleMediaLoop, ht, hta, bind, Except.bind] at h
          obtain ⟨hty, built, builtCalls, hout, hall, hres⟩ := ih _ _ _ h
          have hv : isVisibleNode env node = false := by simp [isVisibleNode, ht, hta]
          exact ⟨hmem hty, built, builtCalls, hout, by simp [List.filter_cons, hv, hall], hres⟩
        · cases hb : buildMedia env c node with
          | error e => simp [collectVisibleMediaLoop, ht, hta, hb, bind, Except.bind] at h
          | ok m =>
            cases hw : env.regionWidth c with
            | error e => simp [collectVisibleMediaLoop, ht, hta, hb, hw, bind, Except.bind] at h
            | ok w =>
              cases hh : env.regionHeight c with
              | error e =>
                simp [collectVisibleMediaLoop, ht, hta, hb, hw, hh, bind, Except.bind] at h
              | ok ht' =>
                simp [collectVisibleMediaLoop, ht, hta, hb, hw, hh, bind, Except.bind] at h
                obtain ⟨hty, built, builtCalls, hout, hall, hres⟩ := ih _ _ _ h
                have hv : isVisibleNode env node = true := by simp [isVisibleNode, ht, hta]
                refine ⟨hmem hty,
                  ⟨m, (env.getMediaPosition w ht' m).1, (env.getMediaPosition w ht' m).2⟩ :: built,
                  ⟨w, ht', m⟩ :: builtCalls, by simp [hout], ?_, ?_⟩
                · simp [List.filter_cons, hv]
                  exact ⟨hb, hall⟩
                · exact List.Forall₂.cons ⟨w, ht', hw, hh, rfl, rfl, rfl⟩ hres
    · rw [mediaNodes_cons_other _ _ _ hname]
      simp [collectVisibleMediaLoop, hname] at h
      exact ih _ _ _ h

theorem MediaFactory_new_kind (kind : FactoryKind) (p n : xlf_node) (f : MediaFactory)
    (h : MediaFactory.new kind p n = .ok f) : f.kind = kind := by
  unfold MediaFactory.new at h
  cases ha : n.get_child "<xmlattr>" with
  | error e => simp [ha, bind, Except.bind] at h
  | ok a =>
    cases ho : n.get_child "options" with
    | error e => simp [ha, ho, bind, Except.bind] at h
    | ok o =>
      simp [ha, ho, bind, Except.bind, pure, Except.pure] at h
      rw [← h]

theorem MediaFactory_create_kind (env : Env) (f : MediaFactory) (m : Media)
    (h : f.create env = .ok m) : m.kind = f.kind := by
  unfold MediaFactory.create MediaFactory.doCreate at h
  cases hd : env.doCreate f.kind f.m_parentNode f.m_attrs f.m_options with
  | error e => simp [hd, bind, Except.bind] at h
  | ok d =>
    simp only [hd, bind, Except.bind, pure, Except.pure] at h
    cases ha : f.createAudioFromNode env d with
    | error e => simp [ha] at h
    | ok a =>
      simp [ha, Media.attachMedia] at h
      rw [← h]

theorem buildMedia_eq (env : Env) (c n : xlf_node) :
    buildMedia env c n =
      (env.mediaType n >>= fun t =>
        MediaFactory.new (dispatchTable t) c n >>= fun f => f.create env) := by
  unfold buildMedia
  congr 1
  funext t
  unfold dispatchTable MediaXlf.ImageType MediaXlf.VideoType MediaXlf.AudioType
  split_ifs <;> rfl

theorem buildMedia_kind (env : Env) (c n : xlf_node) (m : Media) (t : String)
    (ht : env.mediaType n = .ok t) (h : buildMedia env c n = .ok m) :
    m.kind = dispatchTable t := by
  rw [buildMedia_eq] at h
  simp only [ht, bind, Except.bind] at h
  cases hf : MediaFactory.new (dispatchTable t) c n with
  | error e => simp [hf] at h
  | ok f =>
    simp only [hf] at h
    rw [MediaFactory_create_kind env f m h, MediaFactory_new_kind _ _ _ _ hf]

theorem buildMedia_kind_audio_iff (env : Env) (c n : xlf_node) (m : Media) (t : String)
    (ht : env.mediaType n = .ok t) (h : buildMedia env c n = .ok m) :
    m.kind = FactoryKind.AudioFactory ↔ t = MediaXlf.AudioType := by
  rw [buildMedia_kind env c n m t ht h]
  unfold dispatchTable MediaXlf.AudioType
  constructor
  · intro hk
    split_ifs at hk with a b d
    exact d
  · intro hta
    subst hta
    decide

theorem forall₂_exists_left {α β : Type} {R : α → β → Prop} {l₁ : List α} {l₂ : List β}
    (h : List.Forall₂ R l₁ l₂) : ∀ b ∈ l₂, ∃ a ∈ l₁, R a b := by
  induction h with
  | nil => intro b hb; cases hb
  | cons hr _ ih =>
    intro b hb
    rcases List.mem_cons.mp hb with rfl | hb
    · exact ⟨_, List.mem_cons_self _ _, hr⟩
    · obtain ⟨a, ha, hab⟩ := ih b hb
      exact ⟨a, List.mem_cons_of_mem _ ha, hab⟩

theorem collectVisibleMedia_ok (env : Env) (c : xlf_node) (visible : List MediaWithPos)
    (h : collectVisibleMedia env c = .ok visible) :
    ∃ calls, collectVisibleMediaTraced env c = .ok (visible, calls) := by
  unfold collectVisibleMedia at h
  cases ht : collectVisibleMediaTraced env c with
  | error e => simp [ht, Functor.map, Except.map] at h
  | ok out =>
    simp [ht, Functor.map, Except.map] at h
    exact ⟨out.2, by rw [← h]⟩

theorem isVisibleNode_eq_true (env : Env) (n : xlf_node) (h : isVisibleNode env n = true) :
    ∃ t, env.mediaType n = .ok t ∧ t ≠ MediaXlf.AudioType := by
  unfold isVisibleNode at h
  cases ht : env.mediaType n with
  | error e => simp [ht] at h
  | ok t => exact ⟨t, rfl, by simpa [ht] using h⟩

theorem isAudioNode_eq_true (env : Env) (n : xlf_node) (h : isAudioNode env n = true) :
    env.mediaType n = .ok MediaXlf.AudioType := by
  unfold isAudioNode at h
  cases ht : env.mediaType n with
  | error e => simp [ht] at h
  | ok t =>
    have : t = MediaXlf.AudioType := by simpa [ht] using h
    rw [this]

theorem isAudioNode_eq_not_isVisibleNode (env : Env) (n : xlf_node) (t : String)
    (h : env.mediaType n = .ok t) : isAudioNode env n = !isVisibleNode env n := by
  simp [isAudioNode, isVisibleNode, h]

theorem MediaFactory_new_audioNode (kind : FactoryKind) (p n : xlf_node) (f : MediaFactory)
    (h : MediaFactory.new kind p n = .ok f) :
    f.m_audioNode = n.get_child_optional "audio" := by
  unfold MediaFactory.new at h
  cases ha : n.get_child "<xmlattr>" with
  | error e => simp [ha, bind, Except.bind] at h
  | ok a =>
    cases ho : n.get_child "options" with
    | error e => simp [ha, ho, bind, Except.bind] at h
    | ok o =>
      simp [ha, ho, bind, Except.bind, pure, Except.pure] at h
      rw [← h]

theorem createAudioFromNode_some (env : Env) (f : MediaFactory)
    (audioNode uriNode attrs : xlf_node) (parentDuration : Int)
    (ha : f.m_audioNode = some audioNode) (hu : audioNode.get_child "uri" = .ok uriNode)
    (hx : uriNode.get_child "<xmlattr>" = .ok attrs) :
    f.createAudioFromNode env parentDuration =
      .ok (some { path := env.joinPath env.directory uriNode.data,
                  volume := if attrs.get_default env.toBool "mute" false then MIN_VOLUME
                            else attrs.get_default env.toInt "volume" MAX_VOLUME,
                  looped := attrs.get_default env.toBool "loop" false,
                  duration := parentDuration }) := by
  unfold MediaFactory.createAudioFromNode
  rw [ha]
  simp only [hu, hx, bind, Except.bind, pure, Except.pure]

theorem createAudioFromNode_none (env : Env) (f : MediaFactory) (parentDuration : Int)
    (ha : f.m_audioNode = none) : f.createAudioFromNode env parentDuration = .ok none := by
  unfold MediaFactory.createAudioFromNode
  rw [ha]
  rfl

theorem MediaFactory_create_ok (env : Env) (f : MediaFactory) (m : Media)
    (h : f.create env = .ok m) :
    ∃ base audio, f.doCreate env = .ok base ∧
      f.createAudioFromNode env base.duration = .ok audio ∧ m = base.attachMedia audio := by
  unfold MediaFactory.create at h
  cases hd : f.doCreate env with
  | error e => simp [hd, bind, Except.bind] at h
  | ok base =>
    cases ha : f.createAudioFromNode env base.duration with
    | error e => simp [hd, ha, bind, Except.bind] at h
    | ok audio =>
      simp [hd, ha, bind, Except.bind, pure, Except.pure] at h
      exact ⟨base, audio, rfl, ha, h.symm⟩

theorem regionNodes_cons_region (node : xlf_node) (rest : List (String × xlf_node)) :
    regionNodes ((RegionXlf.NodeName, node) :: rest) = node :: regionNodes rest := by
  simp [regionNodes]

theorem regionNodes_cons_other (name : String) (node : xlf_node)
    (rest : List (String × xlf_node)) (h : name ≠ RegionXlf.NodeName) :
    regionNodes ((name, node) :: rest) = regionNodes rest := by
  simp [regionNodes, h]

theorem collectContainersLoop_ok (env : Env) :
    ∀ (children : List (String × xlf_node)) (acc out : List MediaContainerWithPos),
      collectContainersLoop env children acc = .ok out →
      ∃ built, out = acc ++ built ∧
        List.Forall₂
          (fun n (c : MediaContainerWithPos) => env.regionLeft n = .ok c.x ∧
            env.regionTop n = .ok c.y ∧ buildContainer env n = .ok c.container)
          (regionNodes children) built := by
  intro children
  induction children with
  | nil =>
    intro acc out h
    simp [collectContainersLoop, pure, Except.pure] at h
    exact ⟨[], by simp [h], by simp [regionNodes]⟩
  | cons p rest ih =>
    obtain ⟨name, node⟩ := p
    intro acc out h
    by_cases hname : name = RegionXlf.NodeName
    · subst hname
      rw [regionNodes_cons_region]
      cases hx : env.regionLeft node with
      | error e => simp [collectContainersLoop, hx, bind, Except.bind] at h
      | ok x =>
        cases hy : env.regionTop node with
        | error e => simp [collectContainersLoop, hx, hy, bind, Except.bind] at h
        | ok y =>
          cases hc : buildContainer env node with
          | error e => simp [collectContainersLoop, hx, hy, hc, bind, Except.bind] at h
          | ok c =>
            simp [collectContainersLoop, hx, hy, hc, bind, Except.bind] at h
            obtain ⟨built, hout, hall⟩ := ih _ _ h
            exact ⟨⟨c, x, y⟩ :: built, by simp [hout], List.Forall₂.cons ⟨hx, hy, hc⟩ hall⟩
    · rw [regionNodes_cons_other _ _ _ hname]
      simp [collectContainersLoop, hname] at h
      exact ih _ _ h

theorem collectContainersLoop_no_region (env : Env) :
    ∀ (children : List (String × xlf_node)) (acc : List MediaContainerWithPos),
      regionNodes children = [] → collectContainersLoop env children acc = .ok acc := by
  intro children
  induction children with
  | nil =>
    intro acc _
    rfl
  | cons p rest ih =>
    obtain ⟨name, node⟩ := p
    intro acc h
    by_cases hname : name = RegionXlf.NodeName
    · subst hname
      rw [regionNodes_cons_region] at h
      cases h
    · rw [regionNodes_cons_other _ _ _ hname] at h
      simp only [collectContainersLoop, hname, if_false]
      exact ih acc h

theorem buildContainer_ok (env : Env) (n : xlf_node) (c : MediaContainer)
    (h : buildContainer env n = .ok c) :
    env.regionWidth n = .ok c.width ∧ env.regionHeight n = .ok c.height ∧
    env.regionZindex n = .ok c.zorder ∧ env.regionLoop n = .ok c.loop ∧
    collectVisibleMedia env n = .ok c.visibleMedia ∧
    collectInvisibleMedia env n = .ok c.invisibleMedia := by
  unfold buildContainer at h
  cases hw : env.regionWidth n with
  | error e => simp [hw, bind, Except.bind] at h
  | ok w =>
    cases hh : env.regionHeight n with
    | error e => simp [hw, hh, bind, Except.bind] at h
    | ok ht =>
      cases hz : env.regionZindex n with
      | error e => simp [hw, hh, hz, bind, Except.bind] at h
      | ok z =>
        cases hl : env.regionLoop n with
        | error e => simp [hw, hh, hz, hl, bind, Except.bind] at h
        | ok l =>
          cases hv : collectVisibleMedia env n with
          | error e => simp [hw, hh, hz, hl, hv, bind, Except.bind] at h
          | ok v =>
            cases hi : collectInvisibleMedia env n with
            | error e => simp [hw, hh, hz, hl, hv, hi, bind, Except.bind] at h
            | ok i =>
              simp [hw, hh, hz, hl, hv, hi, bind, Except.bind, pure, Except.pure] at h
              subst h
              exact ⟨rfl, rfl, rfl, rfl, rfl, rfl⟩

theorem buildBackground_ok (env : Env) (n : xlf_node) (b : Background)
    (h : buildBackground env n = .ok b) :
    env.layoutWidth n = .ok b.width ∧ env.layoutHeight n = .ok b.height ∧
    env.backgroundPath n = .ok b.path ∧ env.backgroundColor n = .ok b.color := by
  unfold buildBackground at h
  cases hw : env.layoutWidth n with
  | error e => simp [hw, bind, Except.bind] at h
  | ok w =>
    cases hh : env.layoutHeight n with
    | error e => simp [hw, hh, bind, Except.bind] at h
    | ok ht =>
      cases hp : env.backgroundPath n with
      | error e => simp [hw, hh, hp, bind, Except.bind] at h
      | ok p =>
        cases hc : env.backgroundColor n with
        | error e => simp [hw, hh, hp, hc, bind, Except.bind] at h
        | ok c =>
          simp [hw, hh, hp, hc, bind, Except.bind, pure, Except.pure] at h
          subst h
          exact ⟨rfl, rfl, rfl, rfl⟩

theorem buildLayout_ok (env : Env) (n : xlf_node) (l : MainLayout)
    (h : buildLayout env n = .ok l) :
    env.layoutWidth n = .ok l.width ∧ env.layoutHeight n = .ok l.height ∧
    buildBackground env n = .ok l.background ∧
    collectContainers env n = .ok l.mediaContainers := by
  unfold buildLayout at h
  cases hw : env.layoutWidth n with
  | error e => simp [hw, bind, Except.bind] at h
  | ok w =>
    cases hh : env.layoutHeight n with
    | error e => simp [hw, hh, bind, Except.bind] at h
    | ok ht =>
      cases hb : buildBackground env n with
      | error e => simp [hw, hh, hb, bind, Except.bind] at h
      | ok b =>
        cases hc : collectContainers env n with
        | error e => simp [hw, hh, hb, hc, bind, Except.bind] at h
        | ok c =>
          simp [hw, hh, hb, hc, bind, Except.bind, pure, Except.pure] at h
          subst h
          exact ⟨rfl, rfl, rfl, rfl⟩

theorem buildMedia_type_ok (env : Env) (c n : xlf_node) (m : Media)
    (h : buildMedia env c n = .ok m) : ∃ t, env.mediaType n = .ok t := by
  rw [buildMedia_eq] at h
  cases ht : env.mediaType n with
  | error e => simp [ht, bind, Except.bind] at h
  | ok t => exact ⟨t, rfl⟩

/-- The invisible loop returns as soon as every media child can be built. -/
theorem collectInvisibleMediaLoop_returns (env : Env) (c : xlf_node) :
    ∀ (children : List (String × xlf_node)) (acc : List Media),
      (∀ n ∈ mediaNodes children, ∃ m, buildMedia env c n = .ok m) →
      ∃ out, collectInvisibleMediaLoop env c children acc = .ok out := by
  intro children
  induction children with
  | nil =>
    intro acc _
    exact ⟨acc, rfl⟩
  | cons p rest ih =>
    obtain ⟨name, node⟩ := p
    intro acc h
    by_cases hname : name = MediaXlf.NodeName
    · subst hname
      rw [mediaNodes_cons_media] at h
      obtain ⟨m, hm⟩ := h node (List.mem_cons_self _ _)
      obtain ⟨t, ht⟩ := buildMedia_type_ok env c node m hm
      have hrest : ∀ n ∈ mediaNodes rest, ∃ m, buildMedia env c n = .ok m :=
        fun n hn => h n (List.mem_cons_of_mem _ hn)
      by_cases hta : t = MediaXlf.AudioType
      · obtain ⟨out, hout⟩ := ih (acc ++ [m]) hrest
        exact ⟨out, by simp [collectInvisibleMediaLoop, ht, hta, hm, hout, bind, Except.bind]⟩
      · obtain ⟨out, hout⟩ := ih acc hrest
        exact ⟨out, by simp [collectInvisibleMediaLoop, ht, hta, hout, bind, Except.bind]⟩
    · rw [mediaNodes_cons_other _ _ _ hname] at h
      obtain ⟨out, hout⟩ := ih acc h
      exact ⟨out, by simp [collectInvisibleMediaLoop, hname, hout]⟩

/-- The visible loop returns as soon as every media child can be built and the region's
width and height can be read. -/
theorem collectVisibleMediaLoop_returns (env : Env) (c : xlf_node) (w h : Int)
    (hw : env.regionWidth c = .ok w) (hh : env.regionHeight c = .ok h) :
    ∀ (children : List (String × xlf_node)) (media : List MediaWithPos)
      (calls : List ResolverCall),
      (∀ n ∈ mediaNodes children, ∃ m, buildMedia env c n = .ok m) →
      ∃ out, collectVisibleMediaLoop env c children media calls = .ok out := by
  intro children
  induction children with
  | nil =>
    intro media calls _
    exact ⟨(media, calls), rfl⟩
  | cons p rest ih =>
    obtain ⟨name, node⟩ := p
    intro media calls hall
    by_cases hname : name = MediaXlf.NodeName
    · subst hname
      rw [mediaNodes_cons_media] at hall
      obtain ⟨m, hm⟩ := hall node (List.mem_cons_self _ _)
      obtain ⟨t, ht⟩ := buildMedia_type_ok env c node m hm
      have hrest : ∀ n ∈ mediaNodes rest, ∃ m, buildMedia env c n = .ok m :=
        fun n hn => hall n (List.mem_cons_of_mem _ hn)
      by_cases hta : t = MediaXlf.AudioType
      · obtain ⟨out, hout⟩ := ih media calls hrest
        exact ⟨out, by simp [collectVisibleMediaLoop, ht, hta, hout, bind, Except.bind]⟩
      · obtain ⟨out, hout⟩ := ih _ _ hrest
        exact ⟨out, by
          simp [collectVisibleMediaLoop, ht, hta, hm, hw, hh, bind, Except.bind]
          exact hout⟩
    · rw [mediaNodes_cons_other _ _ _ hname] at hall
      obtain ⟨out, hout⟩ := ih media calls hall
      exact ⟨out, by simp [collectVisibleMediaLoop, hname, hout]⟩

/-- The container loop returns as soon as every region child has a readable left and top
and can be built. -/
theorem collectContainersLoop_returns (env : Env) :
    ∀ (children : List (String × xlf_node)) (acc : List MediaContainerWithPos),
      (∀ n ∈ regionNodes children, (∃ x, env.regionLeft n = .ok x) ∧
        (∃ y, env.regionTop n = .ok y) ∧ ∃ b, buildContainer env n = .ok b) →
      ∃ out, collectContainersLoop env children acc = .ok out := by
  intro children
  induction children with
  | nil =>
    intro acc _
    exact ⟨acc, rfl⟩
  | cons p rest ih =>
    obtain ⟨name, node⟩ := p
    intro acc hall
    by_cases hname : name = RegionXlf.NodeName
    · subst hname
      rw [regionNodes_cons_region] at hall
      obtain ⟨⟨x, hx⟩, ⟨y, hy⟩, b, hb⟩ := hall node (List.mem_cons_self _ _)
      obtain ⟨out, hout⟩ := ih (acc ++ [⟨b, x, y⟩])
        (fun n hn => hall n (List.mem_cons_of_mem _ hn))
      exact ⟨out, by simp [collectContainersLoop, hx, hy, hb, hout, bind, Except.bind]⟩
    · rw [regionNodes_cons_other _ _ _ hname] at hall
      obtain ⟨out, hout⟩ := ih acc hall
      exact ⟨out, by simp [collectContainersLoop, hname, hout]⟩

theorem built_visible_kind (env : Env) (c : xlf_node) (nodes : List xlf_node)
    (built : List MediaWithPos)
    (h : List.Forall₂ (fun n (m : MediaWithPos) => buildMedia env c n = .ok m.media)
      (nodes.filter (isVisibleNode env)) built) :
    ∀ v ∈ built, v.media.kind ≠ FactoryKind.AudioFactory := by
  intro v hv hk
  obtain ⟨n, hn, hbuild⟩ := forall₂_exists_left h v hv
  obtain ⟨t, ht, hne⟩ := isVisibleNode_eq_true env n (List.mem_filter.mp hn).2
  exact hne ((buildMedia_kind_audio_iff env c n v.media t ht hbuild).mp hk)

theorem built_invisible_kind (env : Env) (c : xlf_node) (nodes : List xlf_node)
    (built : List Media)
    (h : List.Forall₂ (fun n m => buildMedia env c n = .ok m)
      (nodes.filter (isAudioNode env)) built) :
    ∀ m ∈ built, m.kind = FactoryKind.AudioFactory := by
  intro m hm
  obtain ⟨n, hn, hbuild⟩ := forall₂_exists_left h m hm
  have ht := isAudioNode_eq_true env n (List.mem_filter.mp hn).2
  exact (buildMedia_kind_audio_iff env c n m _ ht hbuild).mpr rfl

theorem get_child_of_none (n : xlf_node) (key : String)
    (h : n.get_child_optional key = none) : n.get_child key = .error (.ptree_bad_path key) := by
  unfold xlf_node.get_child
  rw [h]

theorem get_child_of_some (n c : xlf_node) (key : String)
    (h : n.get_child_optional key = some c) : n.get_child key = .ok c := by
  unfold xlf_node.get_child
  rw [h]

theorem get_child_ok (n c : xlf_node) (key : String)
    (h : n.get_child key = .ok c) : n.get_child_optional key = some c := by
  unfold xlf_node.get_child at h
  cases ho : n.get_child_optional key with
  | none => simp [ho] at h
  | some c2 =>
    simp [ho] at h
    rw [h]

theorem createAudioFromNode_no_uri (env : Env) (f : MediaFactory) (audioNode : xlf_node)
    (parentDuration : Int) (ha : f.m_audioNode = some audioNode)
    (hu : audioNode.get_child_optional "uri" = none) :
    f.createAudioFromNode env parentDuration = .error (.ptree_bad_path "uri") := by
  unfold MediaFactory.createAudioFromNode
  rw [ha]
  simp only [get_child_of_none audioNode "uri" hu, bind, Except.bind]

theorem createAudioFromNode_no_attrs (env : Env) (f : MediaFactory)
    (audioNode uriNode : xlf_node) (parentDuration : Int)
    (ha : f.m_audioNode = some audioNode) (hu : audioNode.get_child "uri" = .ok uriNode)
    (hx : uriNode.get_child_optional "<xmlattr>" = none) :
    f.createAudioFromNode env parentDuration = .error (.ptree_bad_path "<xmlattr>") := by
  unfold MediaFactory.createAudioFromNode
  rw [ha]
  simp only [hu, get_child_of_none uriNode "<xmlattr>" hx, bind, Except.bind]

theorem createAudioFromNode_ok_some (env : Env) (f : MediaFactory) (parentDuration : Int)
    (audio : Audio) (h : f.createAudioFromNode env parentDuration = .ok (some audio)) :
    ∃ audioNode uriNode attrs, f.m_audioNode = some audioNode ∧
      audioNode.get_child "uri" = .ok uriNode ∧ uriNode.get_child "<xmlattr>" = .ok attrs ∧
      audio = { path := env.joinPath env.directory uriNode.data,
                volume := if attrs.get_default env.toBool "mute" false then MIN_VOLUME
                          else attrs.get_default env.toInt "volume" MAX_VOLUME,
                looped := attrs.get_default env.toBool "loop" false,
                duration := parentDuration } := by
  cases ha : f.m_audioNode with
  | none =>
    rw [createAudioFromNode_none env f parentDuration ha] at h
    cases h
  | some audioNode =>
    cases hu : audioNode.get_child "uri" with
    | error e =>
      unfold MediaFactory.createAudioFromNode at h
      rw [ha] at h
      simp [hu, bind, Except.bind] at h
    | ok uriNode =>
      cases hx : uriNode.get_child "<xmlattr>" with
      | error e =>
        unfold MediaFactory.createAudioFromNode at h
        rw [ha] at h
        simp [hu, hx, bind, Except.bind] at h
      | ok attrs =>
        rw [createAudioFromNode_some env f audioNode uriNode attrs parentDuration ha hu hx] at h
        cases h
        exact ⟨audioNode, uriNode, attrs, rfl, hu, hx, rfl⟩

theorem doCreate_ok (env : Env) (f : MediaFactory) (base : Media)
    (h : f.doCreate env = .ok base) :
    env.doCreate f.kind f.m_parentNode f.m_attrs f.m_options = .ok base.duration ∧
    base = { kind := f.kind, parentNode := f.m_parentNode, attrs := f.m_attrs,
             options := f.m_options, duration := base.duration, attached := none } := by
  unfold MediaFactory.doCreate at h
  cases hd : env.doCreate f.kind f.m_parentNode f.m_attrs f.m_options with
  | error e => simp [hd, bind, Except.bind] at h
  | ok d =>
    simp [hd, bind, Except.bind, pure, Except.pure] at h
    subst h
    exact ⟨rfl, rfl⟩

theorem collectVisibleMediaLoop_env (env : Env) (left top : xlf_node → Except XlfError Int)
    (c : xlf_node) :
    ∀ (children : List (String × xlf_node)) (media : List MediaWithPos)
      (calls : List ResolverCall),
      collectVisibleMediaLoop { env with regionLeft := left, regionTop := top } c children
        media calls = collectVisibleMediaLoop env c children media calls := by
  intro children
  induction children with
  | nil =>
    intro media calls
    rfl
  | cons p rest ih =>
    obtain ⟨name, node⟩ := p
    intro media calls
    simp only [collectVisibleMediaLoop, ih]
    rfl

theorem forall₂_exists_right {α β : Type} {R : α → β → Prop} {l₁ : List α} {l₂ : List β}
    (h : List.Forall₂ R l₁ l₂) : ∀ a ∈ l₁, ∃ b ∈ l₂, R a b := by
  induction h with
  | nil => intro a ha; cases ha
  | cons hr _ ih =>
    intro a ha
    rcases List.mem_cons.mp ha with rfl | ha
    · exact ⟨_, List.mem_cons_self _ _, hr⟩
    · obtain ⟨b, hb, hab⟩ := ih a ha
      exact ⟨b, List.mem_cons_of_mem _ hb, hab⟩

theorem except_error_of_not_ok {α : Type} (x : Except XlfError α) (h : ∀ a, x ≠ .ok a) :
    ∃ e, x = .error e := by
  cases hx : x with
  | error e => exact ⟨e, rfl⟩
  | ok a => exact absurd hx (h a)

theorem buildMedia_ok (env : Env) (c n : xlf_node) (m : Media)
    (h : buildMedia env c n = .ok m) :
    ∃ t f, env.mediaType n = .ok t ∧ MediaFactory.new (dispatchTable t) c n = .ok f ∧
      f.create env = .ok m := by
  rw [buildMedia_eq] at h
  cases ht : env.mediaType n with
  | error e => simp [ht, bind, Except.bind] at h
  | ok t =>
    cases hf : MediaFactory.new (dispatchTable t) c n with
    | error e => simp [ht, hf, bind, Except.bind] at h
    | ok f =>
      simp only [ht, hf, bind, Except.bind] at h
      exact ⟨t, f, rfl, hf, h⟩

theorem MediaFactory_new_ok (kind : FactoryKind) (p n : xlf_node) (f : MediaFactory)
    (h : MediaFactory.new kind p n = .ok f) :
    n.get_child_optional "<xmlattr>" = some f.m_attrs ∧
    n.get_child_optional "options" = some f.m_options ∧ f.m_parentNode = p := by
  unfold MediaFactory.new at h
  cases ha : n.get_child "<xmlattr>" with
  | error e => simp [ha, bind, Except.bind] at h
  | ok a =>
    cases ho : n.get_child "options" with
    | error e => simp [ha, ho, bind, Except.bind] at h
    | ok o =>
      simp [ha, ho, bind, Except.bind, pure, Except.pure] at h
      subst h
      exact ⟨get_child_ok n a _ ha, get_child_ok n o _ ho, rfl⟩

theorem MediaFactory_new_error (kind : FactoryKind) (p n : xlf_node)
    (h : n.get_child_optional "<xmlattr>" = none ∨ n.get_child_optional "options" = none) :
    MediaFactory.new kind p n =
      .error (.ptree_bad_path
        (if (n.get_child_optional "<xmlattr>").isNone then "<xmlattr>" else "options")) := by
  unfold MediaFactory.new
  cases ha : n.get_child_optional "<xmlattr>" with
  | none =>
    simp [get_child_of_none n "<xmlattr>" ha, bind, Except.bind]
  | some a =>
    rcases h with h | h
    · rw [ha] at h
      cases h
    · simp [get_child_of_some n a "<xmlattr>" ha, get_child_of_none n "options" h, bind,
        Except.bind]

theorem collected_media_built (env : Env) (c : xlf_node) (visible : List MediaWithPos)
    (invisible : List Media)
    (hv : collectVisibleMedia env c = .ok visible)
    (hi : collectInvisibleMedia env c = .ok invisible) :
    ∀ n ∈ mediaChildren c, ∃ m, buildMedia env c n = .ok m ∧
      ((isVisibleNode env n = true ∧ ∃ v ∈ visible, v.media = m) ∨
       (isAudioNode env n = true ∧ m ∈ invisible)) := by
  obtain ⟨calls, hvt⟩ := collectVisibleMedia_ok env c visible hv
  obtain ⟨hty, built, builtCalls, hout, hvis, _⟩ :=
    collectVisibleMediaLoop_ok env c _ _ _ _ hvt
  obtain ⟨_, builtInv, houtInv, hinv⟩ := collectInvisibleMediaLoop_ok env c _ _ _ hi
  have hb : built = visible := by
    have := congrArg Prod.fst hout
    simpa using this.symm
  have hbi : builtInv = invisible := by simpa using houtInv.symm
  subst hb
  subst hbi
  intro n hn
  obtain ⟨t, ht⟩ := hty n hn
  by_cases hta : t = MediaXlf.AudioType
  · have ha : isAudioNode env n = true := by simp [isAudioNode, ht, hta]
    obtain ⟨m, hm, hbuild⟩ :=
      forall₂_exists_right hinv n (List.mem_filter.mpr ⟨hn, ha⟩)
    exact ⟨m, hbuild, Or.inr ⟨ha, hm⟩⟩
  · have hvn : isVisibleNode env n = true := by simp [isVisibleNode, ht, hta]
    obtain ⟨v, hvm, hbuild⟩ :=
      forall₂_exists_right hvis n (List.mem_filter.mpr ⟨hn, hvn⟩)
    exact ⟨v.media, hbuild, Or.inl ⟨hvn, v, hvm, rfl⟩⟩

theorem exceptRel_bind {α β γ δ : Type} {R : α → β → Prop} {S : γ → δ → Prop}
    {x₁ : Except XlfError α} {x₂ : Except XlfError β}
    {f₁ : α → Except XlfError γ} {f₂ : β → Except XlfError δ}
    (h : ExceptRel R x₁ x₂) (hf : ∀ a b, R a b → ExceptRel S (f₁ a) (f₂ b)) :
    ExceptRel S (x₁ >>= f₁) (x₂ >>= f₂) := by
  cases x₁ with
  | error e₁ =>
    cases x₂ with
    | error e₂ => exact h
    | ok b => exact h.elim
  | ok a =>
    cases x₂ with
    | error e₂ => exact h.elim
    | ok b => exact hf a b h

theorem exceptRel_same_bind {α γ δ : Type} {S : γ → δ → Prop}
    (x : Except XlfError α) {f₁ : α → Except XlfError γ} {f₂ : α → Except XlfError δ}
    (hf : ∀ a, ExceptRel S (f₁ a) (f₂ a)) :
    ExceptRel S (x >>= f₁) (x >>= f₂) := by
  cases x with
  | error e => exact rfl
  | ok a => exact hf a

theorem exceptRel_map_eq {α β : Type} (g : α → β) {x₁ x₂ : Except XlfError α}
    (h : ExceptRel (fun a b => g a = g b) x₁ x₂) : g <$> x₁ = g <$> x₂ := by
  cases x₁ with
  | error e₁ =>
    cases x₂ with
    | error e₂ =>
      have : e₁ = e₂ := h
      rw [this]
    | ok b => exact h.elim
  | ok a =>
    cases x₂ with
    | error e₂ => exact h.elim
    | ok b =>
      have : g a = g b := h
      simp [Functor.map, Except.map, this]

theorem createAudioFromNode_shape (env : Env)
    (doCreate2 : FactoryKind → xlf_node → xlf_node → xlf_node → Except XlfError Int)
    (position2 : Int → Int → Media → Int × Int) (f : MediaFactory) (d₁ d₂ : Int) :
    ExceptRel (fun a b => a.map Audio.shape = b.map Audio.shape)
      (f.createAudioFromNode env d₁)
      (f.createAudioFromNode { env with doCreate := doCreate2, getMediaPosition := position2 }
        d₂) := by
  unfold MediaFactory.createAudioFromNode
  cases f.m_audioNode with
  | none => exact rfl
  | some audioNode =>
    apply exceptRel_same_bind
    intro uriNode
    apply exceptRel_same_bind
    intro attrs
    exact rfl

theorem create_shape (env : Env)
    (doCreate2 : FactoryKind → xlf_node → xlf_node → xlf_node → Except XlfError Int)
    (position2 : Int → Int → Media → Int × Int)
    (h : ∀ k p a o, (fun _ => ()) <$> env.doCreate k p a o = (fun _ => ()) <$> doCreate2 k p a o)
    (f : MediaFactory) :
    ExceptRel (fun a b => a.shape = b.shape) (f.create env)
      (f.create { env with doCreate := doCreate2, getMediaPosition := position2 }) := by
  unfold MediaFactory.create MediaFactory.doCreate
  have hd : ExceptRel (fun _ _ => True)
      (env.doCreate f.kind f.m_parentNode f.m_attrs f.m_options)
      (doCreate2 f.kind f.m_parentNode f.m_attrs f.m_options) := by
    have := h f.kind f.m_parentNode f.m_attrs f.m_options
    cases h1 : env.doCreate f.kind f.m_parentNode f.m_attrs f.m_options with
    | error e₁ =>
      cases h2 : doCreate2 f.kind f.m_parentNode f.m_attrs f.m_options with
      | error e₂ =>
        simp [h1, h2, Functor.map, Except.map] at this
        exact this
      | ok b => simp [h1, h2, Functor.map, Except.map] at this
    | ok a =>
      cases h2 : doCreate2 f.kind f.m_parentNode f.m_attrs f.m_options with
      | error e₂ => simp [h1, h2, Functor.map, Except.map] at this
      | ok b => exact trivial
  simp only [bind_assoc, pure_bind]
  apply exceptRel_bind hd
  intro d₁ d₂ _
  apply exceptRel_bind (createAudioFromNode_shape env doCreate2 position2 f d₁ d₂)
  intro a b hab
  show Media.shape _ = Media.shape _
  simp [Media.shape, Media.attachMedia, hab]

theorem buildMedia_shape (env : Env)
    (doCreate2 : FactoryKind → xlf_node → xlf_node → xlf_node → Except XlfError Int)
    (position2 : Int → Int → Media → Int × Int)
    (h : ∀ k p a o, (fun _ => ()) <$> env.doCreate k p a o = (fun _ => ()) <$> doCreate2 k p a o)
    (c n : xlf_node) :
    ExceptRel (fun a b => a.shape = b.shape) (buildMedia env c n)
      (buildMedia { env with doCreate := doCreate2, getMediaPosition := position2 } c n) := by
  rw [buildMedia_eq, buildMedia_eq]
  apply exceptRel_same_bind
  intro t
  apply exceptRel_same_bind
  intro f
  exact create_shape env doCreate2 position2 h f

theorem collectInvisibleMediaLoop_shape (env : Env)
    (doCreate2 : FactoryKind → xlf_node → xlf_node → xlf_node → Except XlfError Int)
    (position2 : Int → Int → Media → Int × Int)
    (h : ∀ k p a o, (fun _ => ()) <$> env.doCreate k p a o = (fun _ => ()) <$> doCreate2 k p a o)
    (c : xlf_node) :
    ∀ (children : List (String × xlf_node)) (acc₁ acc₂ : List Media),
      acc₁.map Media.shape = acc₂.map Media.shape →
      ExceptRel (fun a b => a.map Media.shape = b.map Media.shape)
        (collectInvisibleMediaLoop env c children acc₁)
        (collectInvisibleMediaLoop
          { env with doCreate := doCreate2, getMediaPosition := position2 } c children acc₂) := by
  intro children
  induction children with
  | nil =>
    intro acc₁ acc₂ hacc
    exact hacc
  | cons p rest ih =>
    obtain ⟨name, node⟩ := p
    intro acc₁ acc₂ hacc
    by_cases hname : name = MediaXlf.NodeName
    · simp only [collectInvisibleMediaLoop, hname, if_true]
      apply exceptRel_same_bind
      intro t
      by_cases hta : t = MediaXlf.AudioType
      · simp only [hta, if_true]
        apply exceptRel_bind (buildMedia_shape env doCreate2 position2 h c node)
        intro a b hab
        apply ih
        simp [hacc, hab]
      · simp only [hta, if_false]
        exact ih acc₁ acc₂ hacc
    · simp only [collectInvisibleMediaLoop, hname, if_false]
      exact ih acc₁ acc₂ hacc

theorem collectVisibleMediaLoop_shape (env : Env)
    (doCreate2 : FactoryKind → xlf_node → xlf_node → xlf_node → Except XlfError Int)
    (position2 : Int → Int → Media → Int × Int)
    (h : ∀ k p a o, (fun _ => ()) <$> env.doCreate k p a o = (fun _ => ()) <$> doCreate2 k p a o)
    (c : xlf_node) :
    ∀ (children : List (String × xlf_node)) (acc₁ acc₂ : List MediaWithPos)
      (calls₁ calls₂ : List ResolverCall),
      acc₁.map MediaWithPos.shape = acc₂.map MediaWithPos.shape →
      ExceptRel (fun a b => a.1.map MediaWithPos.shape = b.1.map MediaWithPos.shape)
        (collectVisibleMediaLoop env c children acc₁ calls₁)
        (collectVisibleMediaLoop
          { env with doCreate := doCreate2, getMediaPosition := position2 } c children
          acc₂ calls₂) := by
  intro children
  induction children with
  | nil =>
    intro acc₁ acc₂ calls₁ calls₂ hacc
    exact hacc
  | cons p rest ih =>
    obtain ⟨name, node⟩ := p
    intro acc₁ acc₂ calls₁ calls₂ hacc
    by_cases hname : name = MediaXlf.NodeName
    · simp only [collectVisibleMediaLoop, hname, if_true]
      apply exceptRel_same_bind
      intro t
      by_cases hta : t = MediaXlf.AudioType
      · simp only [hta, ne_eq, not_true_eq_false, if_false]
        exact ih acc₁ acc₂ calls₁ calls₂ hacc
      · simp only [hta, ne_eq, not_false_eq_true, if_true]
        apply exceptRel_bind (buildMedia_shape env doCreate2 position2 h c node)
        intro a b hab
        apply exceptRel_same_bind
        intro w
        apply exceptRel_same_bind
        intro ht
        apply ih
        simp [hacc, hab, MediaWithPos.shape]
    · simp only [collectVisibleMediaLoop, hname, if_false]
      exact ih acc₁ acc₂ calls₁ calls₂ hacc

theorem buildContainer_shape (env : Env)
    (doCreate2 : FactoryKind → xlf_node → xlf_node → xlf_node → Except XlfError Int)
    (position2 : Int → Int → Media → Int × Int)
    (h : ∀ k p a o, (fun _ => ()) <$> env.doCreate k p a o = (fun _ => ()) <$> doCreate2 k p a o)
    (c : xlf_node) :
    ExceptRel (fun a b => a.shape = b.shape) (buildContainer env c)
      (buildContainer { env with doCreate := doCreate2, getMediaPosition := position2 } c) := by
  unfold buildContainer
  apply exceptRel_same_bind
  intro width
  apply exceptRel_same_bind
  intro height
  apply exceptRel_same_bind
  intro zorder
  apply exceptRel_same_bind
  intro loop
  have hv : ExceptRel (fun a b => a.map MediaWithPos.shape = b.map MediaWithPos.shape)
      (collectVisibleMedia env c)
      (collectVisibleMedia { env with doCreate := doCreate2, getMediaPosition := position2 }
        c) := by
    unfold collectVisibleMedia collectVisibleMediaTraced
    have hl := collectVisibleMediaLoop_shape env doCreate2 position2 h c c.children [] [] [] []
      rfl
    revert hl
    generalize collectVisibleMediaLoop env c c.children [] [] = x₁
    generalize collectVisibleMediaLoop
      { env with doCreate := doCreate2, getMediaPosition := position2 } c c.children [] [] = x₂
    intro hl
    cases x₁ <;> cases x₂ <;> exact hl
  apply exceptRel_bind hv
  intro v₁ v₂ hvis
  apply exceptRel_bind
    (collectInvisibleMediaLoop_shape env doCreate2 position2 h c c.children [] [] rfl)
  intro i₁ i₂ hinv
  show MediaContainer.shape _ = MediaContainer.shape _
  simp [MediaContainer.shape, hvis, hinv]

theorem collectContainersLoop_shape (env : Env)
    (doCreate2 : FactoryKind → xlf_node → xlf_node → xlf_node → Except XlfError Int)
    (position2 : Int → Int → Media → Int × Int)
    (h : ∀ k p a o, (fun _ => ()) <$> env.doCreate k p a o = (fun _ => ()) <$> doCreate2 k p a o) :
    ∀ (children : List (String × xlf_node)) (acc₁ acc₂ : List MediaContainerWithPos),
      acc₁.map MediaContainerWithPos.shape = acc₂.map MediaContainerWithPos.shape →
      ExceptRel
        (fun a b => a.map MediaContainerWithPos.shape = b.map MediaContainerWithPos.shape)
        (collectContainersLoop env children acc₁)
        (collectContainersLoop
          { env with doCreate := doCreate2, getMediaPosition := position2 } children acc₂) := by
  intro children
  induction children with
  | nil =>
    intro acc₁ acc₂ hacc
    exact hacc
  | cons p rest ih =>
    obtain ⟨name, node⟩ := p
    intro acc₁ acc₂ hacc
    by_cases hname : name = RegionXlf.NodeName
    · simp only [collectContainersLoop, hname, if_true]
      apply exceptRel_same_bind
      intro x
      apply exceptRel_same_bind
      intro y
      apply exceptRel_bind (buildContainer_shape env doCreate2 position2 h node)
      intro a b hab
      apply ih
      simp [hacc, hab, MediaContainerWithPos.shape]
    · simp only [collectContainersLoop, hname, if_false]
      exact ih acc₁ acc₂ hacc

theorem buildLayoutWithChildren_shape (env : Env)
    (doCreate2 : FactoryKind → xlf_node → xlf_node → xlf_node → Except XlfError Int)
    (position2 : Int → Int → Media → Int × Int)
    (h : ∀ k p a o, (fun _ => ()) <$> env.doCreate k p a o = (fun _ => ()) <$> doCreate2 k p a o)
    (tree : xlf_node) :
    ExceptRel (fun a b => a.shape = b.shape) (buildLayoutWithChildren env tree)
      (buildLayoutWithChildren
        { env with doCreate := doCreate2, getMediaPosition := position2 } tree) := by
  unfold buildLayoutWithChildren
  apply exceptRel_same_bind
  intro layoutNode
  unfold buildLayout
  apply exceptRel_same_bind
  intro width
  apply exceptRel_same_bind
  intro height
  apply exceptRel_same_bind
  intro background
  apply exceptRel_bind
    (collectContainersLoop_shape env doCreate2 position2 h layoutNode.children [] [] rfl)
  intro a b hab
  show MainLayout.shape _ = MainLayout.shape _
  simp [MainLayout.shape, hab]

/-! ## Partition of a region's media -/

/-- C1: when `collectVisibleMedia` and `collectInvisibleMedia` both return for a region, every
child named "media" declares a type and falls in exactly one of two classes; the visible
sequence holds, in document order, one media built by `buildMedia` for each media child whose
type is not audio, the invisible sequence one for each media child whose type is audio; the
two classes are the two halves of a partition of the media children, so the sequences
together have one element per media child, children of any other name contribute nothing,
and no media of the visible sequence occurs in the invisible one. -/
theorem collect_media_partition (env : Env) (containerNode : xlf_node)
    (visible : List MediaWithPos) (invisible : List Media)
    (hv : collectVisibleMedia env containerNode = .ok visible)
    (hi : collectInvisibleMedia env containerNode = .ok invisible) :
    (∀ n ∈ mediaChildren containerNode, isAudioNode env n = !isVisibleNode env n) ∧
    List.Forall₂ (fun n (m : MediaWithPos) => buildMedia env containerNode n = .ok m.media)
      ((mediaChildren containerNode).filter (isVisibleNode env)) visible ∧
    List.Forall₂ (fun n m => buildMedia env containerNode n = .ok m)
      ((mediaChildren containerNode).filter (isAudioNode env)) invisible ∧
    (mediaChildren containerNode).partition (isVisibleNode env) =
      ((mediaChildren containerNode).filter (isVisibleNode env),
       (mediaChildren containerNode).filter (isAudioNode env)) ∧
    visible.length + invisible.length = (mediaChildren containerNode).length ∧
    (∀ v ∈ visible, v.media ∉ invisible) := by
  obtain ⟨calls, hvt⟩ := collectVisibleMedia_ok env containerNode visible hv
  obtain ⟨hty, built, builtCalls, hout, hvis, _⟩ :=
    collectVisibleMediaLoop_ok env containerNode _ _ _ _ hvt
  obtain ⟨_, builtInv, houtInv, hinv⟩ := collectInvisibleMediaLoop_ok env containerNode _ _ _ hi
  have hb : built = visible := by
    have := congrArg Prod.fst hout
    simpa using this.symm
  have hbi : builtInv = invisible := by simpa using houtInv.symm
  subst hb
  subst hbi
  have hclass : ∀ n ∈ mediaChildren containerNode,
      isAudioNode env n = !isVisibleNode env n := by
    intro n hn
    obtain ⟨t, ht⟩ := hty n hn
    exact isAudioNode_eq_not_isVisibleNode env n t ht
  have hfilter : (mediaChildren containerNode).filter (fun n => !isVisibleNode env n) =
      (mediaChildren containerNode).filter (isAudioNode env) := by
    apply List.filter_congr
    intro n hn
    exact (hclass n hn).symm
  have hpart : (mediaChildren containerNode).partition (isVisibleNode env) =
      ((mediaChildren containerNode).filter (isVisibleNode env),
       (mediaChildren containerNode).filter (isAudioNode env)) := by
    rw [List.partition_eq_filter_filter, ← hfilter]
    rfl
  refine ⟨hclass, hvis, hinv, hpart, ?_, ?_⟩
  · have hlen :=
      (List.filter_append_perm (isVisibleNode env) (mediaChildren containerNode)).length_eq
    rw [List.length_append, hfilter] at hlen
    rw [← hvis.length_eq, ← hinv.length_eq]
    exact hlen
  · intro v hvmem hmem
    exact built_visible_kind env containerNode _ _ hvis v hvmem
      (built_invisible_kind env containerNode _ _ hinv v.media hmem)

/-- Witness for C1: the sample region, whose children are an image, a child of another name,
an audio and a ticker. -/
theorem collect_media_partition_witness :
    collectVisibleMedia specEnv sampleRegion.2 = .ok sampleVisible ∧
    collectInvisibleMedia specEnv sampleRegion.2 = .ok [sampleAudio] ∧
    (∀ n ∈ mediaChildren sampleRegion.2, isAudioNode specEnv n = !isVisibleNode specEnv n) ∧
    List.Forall₂ (fun n (m : MediaWithPos) => buildMedia specEnv sampleRegion.2 n = .ok m.media)
      ((mediaChildren sampleRegion.2).filter (isVisibleNode specEnv)) sampleVisible ∧
    List.Forall₂ (fun n m => buildMedia specEnv sampleRegion.2 n = .ok m)
      ((mediaChildren sampleRegion.2).filter (isAudioNode specEnv)) [sampleAudio] ∧
    (mediaChildren sampleRegion.2).partition (isVisibleNode specEnv) =
      ((mediaChildren sampleRegion.2).filter (isVisibleNode specEnv),
       (mediaChildren sampleRegion.2).filter (isAudioNode specEnv)) ∧
    sampleVisible.length + [sampleAudio].length = (mediaChildren sampleRegion.2).length ∧
    (∀ v ∈ sampleVisible, v.media ∉ [sampleAudio]) :=
  ⟨rfl, rfl, collect_media_partition specEnv sampleRegion.2 sampleVisible [sampleAudio] rfl rfl⟩

/-- C2: when both collections of a region return, no media built from a node of declared
type audio is in the visible sequence or among the media the position visitor was applied
to, and every element of the invisible sequence is built from a media child of the region
whose declared type is audio. The visible media and the visitor's arguments all come from
a factory other than `AudioFactory`, the invisible media all from `AudioFactory`. -/
theorem audio_never_visible (env : Env) (containerNode : xlf_node)
    (visible : List MediaWithPos) (calls : List ResolverCall) (invisible : List Media)
    (hv : collectVisibleMediaTraced env containerNode = .ok (visible, calls))
    (hi : collectInvisibleMedia env containerNode = .ok invisible) :
    (∀ n m, env.mediaType n = .ok MediaXlf.AudioType →
      buildMedia env containerNode n = .ok m →
        m ∉ visible.map (fun v => v.media) ∧ m ∉ calls.map (fun call => call.media)) ∧
    (∀ m ∈ invisible, ∃ n ∈ mediaChildren containerNode,
      env.mediaType n = .ok MediaXlf.AudioType ∧ buildMedia env containerNode n = .ok m) ∧
    (∀ v ∈ visible, v.media.kind ≠ FactoryKind.AudioFactory) ∧
    (∀ call ∈ calls, call.media.kind ≠ FactoryKind.AudioFactory) ∧
    (∀ m ∈ invisible, m.kind = FactoryKind.AudioFactory) := by
  obtain ⟨_, built, builtCalls, hout, hvis, hres⟩ :=
    collectVisibleMediaLoop_ok env containerNode _ _ _ _ hv
  obtain ⟨_, builtInv, houtInv, hinv⟩ := collectInvisibleMediaLoop_ok env containerNode _ _ _ hi
  have hb : built = visible := by
    have := congrArg Prod.fst hout
    simpa using this.symm
  have hc : builtCalls = calls := by
    have := congrArg Prod.snd hout
    simpa using this.symm
  have hbi : builtInv = invisible := by simpa using houtInv.symm
  subst hb
  subst hc
  subst hbi
  have hviskind : ∀ v ∈ built, v.media.kind ≠ FactoryKind.AudioFactory := by
    intro v hvmem
    obtain ⟨n, hn, hbuild⟩ := forall₂_exists_left hvis v hvmem
    obtain ⟨t, ht, hne⟩ := isVisibleNode_eq_true env n (List.mem_filter.mp hn).2
    intro hk
    exact hne ((buildMedia_kind_audio_iff env containerNode n v.media t ht hbuild).mp hk)
  have hcallkind : ∀ call ∈ builtCalls, call.media.kind ≠ FactoryKind.AudioFactory := by
    intro call hcall
    obtain ⟨v, hvmem, w, h, _, _, hcalleq, _, _⟩ := forall₂_exists_left hres call hcall
    rw [hcalleq]
    exact hviskind v hvmem
  have hinvsrc : ∀ m ∈ builtInv, ∃ n ∈ mediaChildren containerNode,
      env.mediaType n = .ok MediaXlf.AudioType ∧ buildMedia env containerNode n = .ok m := by
    intro m hm
    obtain ⟨n, hn, hbuild⟩ := forall₂_exists_left hinv m hm
    exact ⟨n, (List.mem_filter.mp hn).1, isAudioNode_eq_true env n (List.mem_filter.mp hn).2,
      hbuild⟩
  refine ⟨?_, hinvsrc, hviskind, hcallkind, ?_⟩
  · intro n m ht hbuild
    have hk : m.kind = FactoryKind.AudioFactory :=
      (buildMedia_kind_audio_iff env containerNode n m _ ht hbuild).mpr rfl
    constructor
    · intro hmem
      obtain ⟨v, hvmem, rfl⟩ := List.mem_map.mp hmem
      exact hviskind v hvmem hk
    · intro hmem
      obtain ⟨call, hcall, rfl⟩ := List.mem_map.mp hmem
      exact hcallkind call hcall hk
  · intro m hm
    obtain ⟨n, _, ht, hbuild⟩ := hinvsrc m hm
    exact (buildMedia_kind_audio_iff env containerNode n m _ ht hbuild).mpr rfl

/-- Witness for C2: the sample region. -/
theorem audio_never_visible_witness :
    collectVisibleMediaTraced specEnv sampleRegion.2 = .ok (sampleVisible, sampleCalls) ∧
    collectInvisibleMedia specEnv sampleRegion.2 = .ok [sampleAudio] ∧
    (∀ n m, specEnv.mediaType n = .ok MediaXlf.AudioType →
      buildMedia specEnv sampleRegion.2 n = .ok m →
        m ∉ sampleVisible.map (fun v => v.media) ∧
        m ∉ sampleCalls.map (fun call => call.media)) ∧
    (∀ m ∈ [sampleAudio], ∃ n ∈ mediaChildren sampleRegion.2,
      specEnv.mediaType n = .ok MediaXlf.AudioType ∧
      buildMedia specEnv sampleRegion.2 n = .ok m) ∧
    (∀ v ∈ sampleVisible, v.media.kind ≠ FactoryKind.AudioFactory) ∧
    (∀ call ∈ sampleCalls, call.media.kind ≠ FactoryKind.AudioFactory) ∧
    (∀ m ∈ [sampleAudio], m.kind = FactoryKind.AudioFactory) :=
  ⟨rfl, rfl,
    audio_never_visible specEnv sampleRegion.2 sampleVisible sampleCalls [sampleAudio] rfl rfl⟩

/-! ## Companion audio and factory dispatch -/

/-- C3: for a media node with an audio child whose uri node carries attributes,
`createAudioFromNode` returns a track whose volume is `MIN_VOLUME` whenever `mute` reads true,
whatever the `volume` attribute declares, and is the declared volume (`MAX_VOLUME` when none
is readable) whenever `mute` reads false; the track that `create` attaches is that one. -/
theorem mute_forces_min_volume (env : Env) (kind : FactoryKind)
    (parentNode mediaNode : xlf_node) (f : MediaFactory) (audioNode uriNode attrs : xlf_node)
    (hf : MediaFactory.new kind parentNode mediaNode = .ok f)
    (ha : mediaNode.get_child_optional "audio" = some audioNode)
    (hu : audioNode.get_child "uri" = .ok uriNode)
    (hx : uriNode.get_child "<xmlattr>" = .ok attrs) :
    (∀ parentDuration, ∃ audio,
      f.createAudioFromNode env parentDuration = .ok (some audio) ∧
      (attrs.get_default env.toBool "mute" false = true → audio.volume = MIN_VOLUME) ∧
      (attrs.get_default env.toBool "mute" false = false →
        audio.volume = attrs.get_default env.toInt "volume" MAX_VOLUME) ∧
      (attrs.get_default env.toBool "mute" false = false →
        ∀ volumeNode v, attrs.get_child_optional "volume" = some volumeNode →
          env.toInt volumeNode.data = some v → audio.volume = v)) ∧
    (∀ m, f.create env = .ok m → ∃ audio, m.attached = some audio ∧
      (attrs.get_default env.toBool "mute" false = true → audio.volume = MIN_VOLUME) ∧
      (attrs.get_default env.toBool "mute" false = false →
        audio.volume = attrs.get_default env.toInt "volume" MAX_VOLUME)) := by
  have hnode : f.m_audioNode = some audioNode := by
    rw [MediaFactory_new_audioNode kind parentNode mediaNode f hf, ha]
  constructor
  · intro parentDuration
    refine ⟨_, createAudioFromNode_some env f audioNode uriNode attrs parentDuration hnode hu hx,
      ?_, ?_, ?_⟩
    · intro hm
      simp [hm]
    · intro hm
      simp [hm]
    · intro hm volumeNode v hvn hv
      have hd : attrs.get_default env.toInt "volume" MAX_VOLUME = v := by
        simp [xlf_node.get_default, hvn, hv]
      show (if attrs.get_default env.toBool "mute" false = true then MIN_VOLUME
        else attrs.get_default env.toInt "volume" MAX_VOLUME) = v
      rw [hm, hd]
      simp
  · intro m hm
    obtain ⟨base, audio, _, haudio, hmeq⟩ := MediaFactory_create_ok env f m hm
    rw [createAudioFromNode_some env f audioNode uriNode attrs base.duration hnode hu hx]
      at haudio
    cases haudio
    refine ⟨_, by rw [hmeq]; rfl, ?_, ?_⟩
    · intro hmute
      simp [hmute]
    · intro hmute
      simp [hmute]

/-- Witness for C3: the image media of the sample region, whose audio child has
`mute="true"` and `volume="80"`. -/
theorem mute_forces_min_volume_witness :
    (∀ parentDuration, ∃ audio,
      (MediaFactory.mk .ImageFactory sampleRegion.2 sampleImage.attrs sampleOptions.2
        (some mutedAudioChild.2)).createAudioFromNode specEnv parentDuration =
          .ok (some audio) ∧
      (true = true → audio.volume = MIN_VOLUME) ∧
      (true = false → audio.volume = 80) ∧
      (true = false →
        ∀ volumeNode v,
          (xmlattr [("mute", "true"), ("volume", "80")]).2.get_child_optional "volume" =
            some volumeNode →
          specEnv.toInt volumeNode.data = some v → audio.volume = v)) ∧
    (∀ m, (MediaFactory.mk .ImageFactory sampleRegion.2 sampleImage.attrs sampleOptions.2
        (some mutedAudioChild.2)).create specEnv = .ok m → ∃ audio, m.attached = some audio ∧
      (true = true → audio.volume = MIN_VOLUME) ∧
      (true = false → audio.volume = 80)) :=
  mute_forces_min_volume specEnv .ImageFactory sampleRegion.2 sampleImageNode.2
    (MediaFactory.mk .ImageFactory sampleRegion.2 sampleImage.attrs sampleOptions.2
      (some mutedAudioChild.2))
    mutedAudioChild.2 (.mk "a.mp3" [xmlattr [("mute", "true"), ("volume", "80")]])
    (xmlattr [("mute", "true"), ("volume", "80")]).2 rfl rfl rfl rfl

/-- C4: `buildMedia` reads the declared type once and constructs exactly one factory from
it, image giving `ImageFactory`, video `VideoFactory`, audio `AudioFactory` and every other
value `WebViewFactory`; the media it returns comes from that factory, and for a type without
a case of its own the result is that of the `WebViewFactory` path, not an error of the
dispatch. -/
theorem buildMedia_dispatch (env : Env) (containerNode mediaNode : xlf_node) (type : String)
    (ht : env.mediaType mediaNode = .ok type) :
    buildMedia env containerNode mediaNode =
      (MediaFactory.new (dispatchTable type) containerNode mediaNode >>=
        fun factory => factory.create env) ∧
    (∀ m, buildMedia env containerNode mediaNode = .ok m → m.kind = dispatchTable type) ∧
    (type = MediaXlf.ImageType → dispatchTable type = .ImageFactory) ∧
    (type = MediaXlf.VideoType → dispatchTable type = .VideoFactory) ∧
    (type = MediaXlf.AudioType → dispatchTable type = .AudioFactory) ∧
    (type ≠ MediaXlf.ImageType → type ≠ MediaXlf.VideoType → type ≠ MediaXlf.AudioType →
      dispatchTable type = .WebViewFactory ∧
      buildMedia env containerNode mediaNode =
        (MediaFactory.new .WebViewFactory containerNode mediaNode >>=
          fun factory => factory.create env)) := by
  have heq : buildMedia env containerNode mediaNode =
      (MediaFactory.new (dispatchTable type) containerNode mediaNode >>=
        fun factory => factory.create env) := by
    rw [buildMedia_eq, ht]
    rfl
  refine ⟨heq, fun m hm => buildMedia_kind env containerNode mediaNode m type ht hm,
    ?_, ?_, ?_, ?_⟩
  · intro h
    subst h
    decide
  · intro h
    subst h
    decide
  · intro h
    subst h
    decide
  · intro h1 h2 h3
    have hd : dispatchTable type = .WebViewFactory := by
      unfold MediaXlf.ImageType at h1
      unfold MediaXlf.VideoType at h2
      unfold MediaXlf.AudioType at h3
      simp [dispatchTable, h1, h2, h3]
    exact ⟨hd, by rw [heq, hd]⟩

/-- Witness for C4: the ticker media of the sample region. -/
theorem buildMedia_dispatch_witness :
    specEnv.mediaType sampleTickerNode.2 = .ok "ticker" ∧
    buildMedia specEnv sampleRegion.2 sampleTickerNode.2 = .ok sampleTicker ∧
    sampleTicker.kind = .WebViewFactory ∧
    (buildMedia specEnv sampleRegion.2 sampleTickerNode.2 =
      (MediaFactory.new (dispatchTable "ticker") sampleRegion.2 sampleTickerNode.2 >>=
        fun factory => factory.create specEnv) ∧
    (∀ m, buildMedia specEnv sampleRegion.2 sampleTickerNode.2 = .ok m →
      m.kind = dispatchTable "ticker") ∧
    ("ticker" = MediaXlf.ImageType → dispatchTable "ticker" = .ImageFactory) ∧
    ("ticker" = MediaXlf.VideoType → dispatchTable "ticker" = .VideoFactory) ∧
    ("ticker" = MediaXlf.AudioType → dispatchTable "ticker" = .AudioFactory) ∧
    ("ticker" ≠ MediaXlf.ImageType → "ticker" ≠ MediaXlf.VideoType →
      "ticker" ≠ MediaXlf.AudioType →
      dispatchTable "ticker" = .WebViewFactory ∧
      buildMedia specEnv sampleRegion.2 sampleTickerNode.2 =
        (MediaFactory.new .WebViewFactory sampleRegion.2 sampleTickerNode.2 >>=
          fun factory => factory.create specEnv))) :=
  ⟨rfl, rfl, rfl, buildMedia_dispatch specEnv sampleRegion.2 sampleTickerNode.2 "ticker" rfl⟩

/-- C5: a factory constructed from a media node without "audio" child, of any of the four
kinds, gets the null result from `createAudioFromNode` for every parent duration; `create`
then is `doCreate` with nothing attached, so it returns exactly when `doCreate` does and the
media it returns has no companion track. -/
theorem no_audio_child_no_track (env : Env) (kind : FactoryKind)
    (parentNode mediaNode : xlf_node) (f : MediaFactory)
    (hf : MediaFactory.new kind parentNode mediaNode = .ok f)
    (ha : mediaNode.get_child_optional "audio" = none) :
    (∀ parentDuration, f.createAudioFromNode env parentDuration = .ok none) ∧
    f.create env = f.doCreate env ∧
    (∀ m, f.create env = .ok m → m.attached = none) ∧
    (∀ duration, env.doCreate f.kind f.m_parentNode f.m_attrs f.m_options = .ok duration →
      ∃ m, f.create env = .ok m ∧ m.attached = none ∧ m.kind = kind) := by
  have hnode : f.m_audioNode = none := by
    rw [MediaFactory_new_audioNode kind parentNode mediaNode f hf, ha]
  have hnone : ∀ parentDuration, f.createAudioFromNode env parentDuration = .ok none :=
    fun d => createAudioFromNode_none env f d hnode
  have hcreate : f.create env = f.doCreate env := by
    unfold MediaFactory.create MediaFactory.doCreate
    cases hd : env.doCreate f.kind f.m_parentNode f.m_attrs f.m_options with
    | error e => rfl
    | ok d =>
      simp only [bind, Except.bind, pure, Except.pure]
      rw [hnone]
      rfl
  refine ⟨hnone, hcreate, ?_, ?_⟩
  · intro m hm
    obtain ⟨base, audio, _, haudio, hmeq⟩ := MediaFactory_create_ok env f m hm
    rw [hnone] at haudio
    cases haudio
    rw [hmeq]
    rfl
  · intro d hd
    refine ⟨{ kind := f.kind, parentNode := f.m_parentNode, attrs := f.m_attrs,
              options := f.m_options, duration := d, attached := none }, ?_, rfl, ?_⟩
    · rw [hcreate]
      unfold MediaFactory.doCreate
      rw [hd]
      rfl
    · exact MediaFactory_new_kind kind parentNode mediaNode f hf

/-- Witness for C5: the audio media of the sample region, which has no audio child. -/
theorem no_audio_child_no_track_witness :
    (∀ parentDuration,
      (MediaFactory.mk .AudioFactory sampleRegion.2 sampleAudio.attrs sampleOptions.2
        none).createAudioFromNode specEnv parentDuration = .ok none) ∧
    (MediaFactory.mk .AudioFactory sampleRegion.2 sampleAudio.attrs sampleOptions.2
        none).create specEnv =
      (MediaFactory.mk .AudioFactory sampleRegion.2 sampleAudio.attrs sampleOptions.2
        none).doCreate specEnv ∧
    (∀ m, (MediaFactory.mk .AudioFactory sampleRegion.2 sampleAudio.attrs sampleOptions.2
        none).create specEnv = .ok m → m.attached = none) ∧
    (∀ duration, specEnv.doCreate .AudioFactory sampleRegion.2 sampleAudio.attrs
        sampleOptions.2 = .ok duration →
      ∃ m, (MediaFactory.mk .AudioFactory sampleRegion.2 sampleAudio.attrs sampleOptions.2
        none).create specEnv = .ok m ∧ m.attached = none ∧ m.kind = .AudioFactory) :=
  no_audio_child_no_track specEnv .AudioFactory sampleRegion.2 sampleAudioNode.2
    (MediaFactory.mk .AudioFactory sampleRegion.2 sampleAudio.attrs sampleOptions.2 none)
    rfl rfl

/-! ## Containers and the layout -/

/-- C6: when `collectContainers` returns for a layout node, its result has exactly one entry
per child named "region", in document order, children of other names being skipped; the
`x` and `y` of an entry are what `RegionXlf::left` and `RegionXlf::top` read from that same
region node, and its container is `buildContainer` of that node. -/
theorem collectContainers_regions (env : Env) (layoutNode : xlf_node)
    (containers : List MediaContainerWithPos)
    (h : collectContainers env layoutNode = .ok containers) :
    List.Forall₂
      (fun n (c : MediaContainerWithPos) => env.regionLeft n = .ok c.x ∧
        env.regionTop n = .ok c.y ∧ buildContainer env n = .ok c.container)
      (regionChildren layoutNode) containers ∧
    containers.length = (regionChildren layoutNode).length := by
  obtain ⟨built, hout, hall⟩ := collectContainersLoop_ok env _ _ _ h
  have hb : built = containers := by simpa using hout.symm
  subst hb
  exact ⟨hall, hall.length_eq.symm⟩

/-- Witness for C6: the sample layout, whose first region has the higher z-order and whose
second child is not a region. -/
theorem collectContainers_regions_witness :
    collectContainers specEnv sampleLayout.2 =
      .ok [⟨sampleContainer, 10, 5⟩, ⟨negativeContainer, -10, 0⟩] ∧
    regionChildren sampleLayout.2 = [sampleRegion.2, negativeRegion.2] ∧
    List.Forall₂
      (fun n (c : MediaContainerWithPos) => specEnv.regionLeft n = .ok c.x ∧
        specEnv.regionTop n = .ok c.y ∧ buildContainer specEnv n = .ok c.container)
      (regionChildren sampleLayout.2)
      [⟨sampleContainer, 10, 5⟩, ⟨negativeContainer, -10, 0⟩] ∧
    [(⟨sampleContainer, 10, 5⟩ : MediaContainerWithPos), ⟨negativeContainer, -10, 0⟩].length =
      (regionChildren sampleLayout.2).length :=
  ⟨rfl, rfl, collectContainers_regions specEnv sampleLayout.2
    [⟨sampleContainer, 10, 5⟩, ⟨negativeContainer, -10, 0⟩] rfl⟩

/-- C7: for a document none of whose top-level children is named "layout",
`buildLayoutWithChildren` returns no layout: the lookup of the layout node throws, and the
exception is the result of the builder. -/
theorem buildLayoutWithChildren_no_layout (env : Env) (tree : xlf_node)
    (h : ∀ p ∈ tree.children, p.1 ≠ LayoutXlf.NodeName) :
    buildLayoutWithChildren env tree = .error (.ptree_bad_path LayoutXlf.NodeName) := by
  have hfind : tree.get_child_optional LayoutXlf.NodeName = none := by
    have hnone : tree.children.find? (fun p => p.1 == LayoutXlf.NodeName) = none := by
      rw [List.find?_eq_none]
      intro p hp
      simpa using h p hp
    unfold xlf_node.get_child_optional
    rw [hnone]
    rfl
  unfold buildLayoutWithChildren xlf_node.get_child
  rw [hfind]
  rfl

/-- Witness for C7: a document whose only top-level child is named "display". -/
theorem buildLayoutWithChildren_no_layout_witness :
    (∀ p ∈ noLayoutDocument.children, p.1 ≠ LayoutXlf.NodeName) ∧
    buildLayoutWithChildren specEnv noLayoutDocument =
      .error (.ptree_bad_path LayoutXlf.NodeName) :=
  ⟨by decide, buildLayoutWithChildren_no_layout specEnv noLayoutDocument (by decide)⟩

/-- C8: for a layout node whose width, height, background path and background colour can be
read and which has no child named "region", `buildLayout` returns a layout, with those
dimensions and background and with an empty sequence of containers. -/
theorem buildLayout_no_regions (env : Env) (layoutNode : xlf_node) (width height : Int)
    (path color : String)
    (hw : env.layoutWidth layoutNode = .ok width)
    (hh : env.layoutHeight layoutNode = .ok height)
    (hp : env.backgroundPath layoutNode = .ok path)
    (hc : env.backgroundColor layoutNode = .ok color)
    (hr : regionChildren layoutNode = []) :
    buildLayout env layoutNode =
      .ok { width := width, height := height,
            background := { width := width, height := height, path := path, color := color },
            mediaContainers := [] } := by
  have hcont : collectContainers env layoutNode = .ok [] :=
    collectContainersLoop_no_region env _ [] hr
  simp only [buildLayout, buildBackground, hw, hh, hp, hc, hcont, bind, Except.bind, pure,
    Except.pure]

/-- Witness for C8: a layout whose only child besides its attributes is named "tags". -/
theorem buildLayout_no_regions_witness :
    regionChildren emptyLayout.2 = [] ∧
    buildLayout specEnv emptyLayout.2 =
      .ok { width := 640, height := 480,
            background := { width := 640, height := 480, path := "", color := "" },
            mediaContainers := [] } :=
  ⟨rfl, buildLayout_no_regions specEnv emptyLayout.2 640 480 "" "" rfl rfl rfl rfl rfl⟩

/-! ## Numeric ranges -/

/-- C9, as stated, fails: the ticker media of the sample region has an audio child with
`volume="500"` and no `mute`; the track built for it has volume 500, off the 0–100 scale. -/
theorem volume_on_scale_counterexample :
    MediaFactory.new .WebViewFactory sampleRegion.2 sampleTickerNode.2 =
      .ok (MediaFactory.mk .WebViewFactory sampleRegion.2 sampleTicker.attrs sampleOptions.2
        (some loudAudioChild.2)) ∧
    (MediaFactory.mk .WebViewFactory sampleRegion.2 sampleTicker.attrs sampleOptions.2
        (some loudAudioChild.2)).createAudioFromNode specEnv 0 =
      .ok (some { path := "resources/b.mp3", volume := 500, looped := false, duration := 0 }) ∧
    ¬ (MIN_VOLUME ≤ (500 : Int) ∧ (500 : Int) ≤ MAX_VOLUME) :=
  ⟨rfl, rfl, by decide⟩

/-- C9, amended: for a media node with an audio child whose uri node carries attributes, the
volume of the track is `MIN_VOLUME` when `mute` reads true and otherwise the declared volume
as read (`MAX_VOLUME` when the attribute is absent or unreadable), without clamping; so it is
on the 0–100 scale exactly when `mute` reads true or the volume as read is on the scale, and
in particular whenever the attribute is absent or unreadable. -/
theorem volume_on_scale_iff (env : Env) (kind : FactoryKind)
    (parentNode mediaNode : xlf_node) (f : MediaFactory) (audioNode uriNode attrs : xlf_node)
    (hf : MediaFactory.new kind parentNode mediaNode = .ok f)
    (ha : mediaNode.get_child_optional "audio" = some audioNode)
    (hu : audioNode.get_child "uri" = .ok uriNode)
    (hx : uriNode.get_child "<xmlattr>" = .ok attrs) :
    ∀ parentDuration, ∃ audio,
      f.createAudioFromNode env parentDuration = .ok (some audio) ∧
      audio.volume = (if attrs.get_default env.toBool "mute" false then MIN_VOLUME
        else attrs.get_default env.toInt "volume" MAX_VOLUME) ∧
      (onVolumeScale audio.volume ↔
        (attrs.get_default env.toBool "mute" false = true ∨
          onVolumeScale (attrs.get_default env.toInt "volume" MAX_VOLUME))) ∧
      (attrs.get_child_optional "volume" = none → onVolumeScale audio.volume) ∧
      (∀ volumeNode, attrs.get_child_optional "volume" = some volumeNode →
        env.toInt volumeNode.data = none → onVolumeScale audio.volume) := by
  have hnode : f.m_audioNode = some audioNode := by
    rw [MediaFactory_new_audioNode kind parentNode mediaNode f hf, ha]
  have hmin : onVolumeScale MIN_VOLUME := by
    unfold onVolumeScale MIN_VOLUME MAX_VOLUME
    decide
  have hmax : onVolumeScale MAX_VOLUME := by
    unfold onVolumeScale MIN_VOLUME MAX_VOLUME
    decide
  intro parentDuration
  refine ⟨_, createAudioFromNode_some env f audioNode uriNode attrs parentDuration hnode hu hx,
    rfl, ?_, ?_, ?_⟩
  · show onVolumeScale (if attrs.get_default env.toBool "mute" false = true then MIN_VOLUME
        else attrs.get_default env.toInt "volume" MAX_VOLUME) ↔ _
    cases hm : attrs.get_default env.toBool "mute" false with
    | true => simp [hmin]
    | false => simp
  · intro hnone
    show onVolumeScale (if attrs.get_default env.toBool "mute" false = true then MIN_VOLUME
        else attrs.get_default env.toInt "volume" MAX_VOLUME)
    have hd : attrs.get_default env.toInt "volume" MAX_VOLUME = MAX_VOLUME := by
      simp [xlf_node.get_default, hnone]
    rw [hd]
    split_ifs
    · exact hmin
    · exact hmax
  · intro volumeNode hsome hunread
    show onVolumeScale (if attrs.get_default env.toBool "mute" false = true then MIN_VOLUME
        else attrs.get_default env.toInt "volume" MAX_VOLUME)
    have hd : attrs.get_default env.toInt "volume" MAX_VOLUME = MAX_VOLUME := by
      simp [xlf_node.get_default, hsome, hunread]
    rw [hd]
    split_ifs
    · exact hmin
    · exact hmax

/-- Witness for C9 amended: the image media of the sample region, muted with `volume="80"`. -/
theorem volume_on_scale_iff_witness :
    ∃ audio,
      (MediaFactory.mk .ImageFactory sampleRegion.2 sampleImage.attrs sampleOptions.2
        (some mutedAudioChild.2)).createAudioFromNode specEnv 10 =
          .ok (some audio) ∧
      audio.volume = (if true then MIN_VOLUME else 80) ∧
      (onVolumeScale audio.volume ↔ (true = true ∨ onVolumeScale 80)) ∧
      ((xmlattr [("mute", "true"), ("volume", "80")]).2.get_child_optional "volume" = none →
        onVolumeScale audio.volume) ∧
      (∀ volumeNode,
        (xmlattr [("mute", "true"), ("volume", "80")]).2.get_child_optional "volume" =
          some volumeNode →
        specEnv.toInt volumeNode.data = none → onVolumeScale audio.volume) :=
  volume_on_scale_iff specEnv .ImageFactory sampleRegion.2 sampleImageNode.2
    (MediaFactory.mk .ImageFactory sampleRegion.2 sampleImage.attrs sampleOptions.2
      (some mutedAudioChild.2))
    mutedAudioChild.2 (.mk "a.mp3" [xmlattr [("mute", "true"), ("volume", "80")]])
    (xmlattr [("mute", "true"), ("volume", "80")]).2 rfl rfl rfl rfl 10

/-- C10, as stated, fails: the sample layout builds, and its second region, declared with
`left="-10"`, is recorded at `x = -10`. -/
theorem placements_nonnegative_counterexample :
    buildLayout specEnv sampleLayout.2 =
      .ok { width := 1920, height := 1080,
            background := { width := 1920, height := 1080, path := "", color := "#000" },
            mediaContainers := [⟨sampleContainer, 10, 5⟩, ⟨negativeContainer, -10, 0⟩] } ∧
    ¬ (∀ c ∈ [(⟨sampleContainer, 10, 5⟩ : MediaContainerWithPos),
              ⟨negativeContainer, -10, 0⟩], 0 ≤ c.x ∧ 0 ≤ c.y) :=
  ⟨rfl, fun h => absurd (h ⟨negativeContainer, -10, 0⟩ (by simp)).1 (by decide)⟩

/-- C10, amended: for a built layout whose region nodes declare non-negative left and top,
and with a position visitor that yields non-negative offsets, every container of the layout
and every visible media of every container is placed at `x ≥ 0`, `y ≥ 0`. -/
theorem placements_nonnegative (env : Env) (layoutNode : xlf_node) (layout : MainLayout)
    (hl : buildLayout env layoutNode = .ok layout)
    (hleft : ∀ n ∈ regionChildren layoutNode, ∀ v, env.regionLeft n = .ok v → 0 ≤ v)
    (htop : ∀ n ∈ regionChildren layoutNode, ∀ v, env.regionTop n = .ok v → 0 ≤ v)
    (hpos : ∀ w h m, 0 ≤ (env.getMediaPosition w h m).1 ∧ 0 ≤ (env.getMediaPosition w h m).2) :
    ∀ c ∈ layout.mediaContainers, 0 ≤ c.x ∧ 0 ≤ c.y ∧
      ∀ v ∈ c.container.visibleMedia, 0 ≤ v.x ∧ 0 ≤ v.y := by
  obtain ⟨_, _, _, hcont⟩ := buildLayout_ok env layoutNode layout hl
  obtain ⟨built, hout, hall⟩ := collectContainersLoop_ok env _ _ _ hcont
  have hb : built = layout.mediaContainers := by simpa using hout.symm
  subst hb
  intro c hcmem
  obtain ⟨n, hn, hx, hy, hbuild⟩ := forall₂_exists_left hall c hcmem
  refine ⟨hleft n hn c.x hx, htop n hn c.y hy, ?_⟩
  intro v hvmem
  obtain ⟨_, _, _, _, hvis, _⟩ := buildContainer_ok env n c.container hbuild
  obtain ⟨calls, hvt⟩ := collectVisibleMedia_ok env n _ hvis
  obtain ⟨_, builtVis, builtCalls, hout2, _, hres⟩ :=
    collectVisibleMediaLoop_ok env n _ _ _ _ hvt
  have hbv : builtVis = c.container.visibleMedia := by
    have := congrArg Prod.fst hout2
    simpa using this.symm
  subst hbv
  have hlen := hres.length_eq
  obtain ⟨i, hi, rfl⟩ := List.getElem_of_mem hvmem
  have hr := List.Forall₂.get hres hi (hlen ▸ hi)
  obtain ⟨w, h, _, _, _, hvx, hvy⟩ := hr
  simp only [List.get_eq_getElem] at hvx hvy
  rw [hvx, hvy]
  exact hpos w h _

/-- Witness for C10 amended: the layout whose only region is the sample region. -/
theorem placements_nonnegative_witness :
    buildLayout specEnv positiveLayout.2 =
      .ok { width := 800, height := 600,
            background := { width := 800, height := 600, path := "", color := "" },
            mediaContainers := [⟨sampleContainer, 10, 5⟩] } ∧
    ∀ c ∈ [(⟨sampleContainer, 10, 5⟩ : MediaContainerWithPos)], 0 ≤ c.x ∧ 0 ≤ c.y ∧
      ∀ v ∈ c.container.visibleMedia, 0 ≤ v.x ∧ 0 ≤ v.y :=
  ⟨rfl, placements_nonnegative specEnv positiveLayout.2
    { width := 800, height := 600,
      background := { width := 800, height := 600, path := "", color := "" },
      mediaContainers := [⟨sampleContainer, 10, 5⟩] } rfl
    (fun n hn v hv => by
      have hn2 : n = sampleRegion.2 := List.mem_singleton.mp hn
      subst hn2
      have hv2 : (Except.ok 10 : Except XlfError Int) = .ok v := hv
      cases hv2
      decide)
    (fun n hn v hv => by
      have hn2 : n = sampleRegion.2 := List.mem_singleton.mp hn
      subst hn2
      have hv2 : (Except.ok 5 : Except XlfError Int) = .ok v := hv
      cases hv2
      decide)
    (fun _ _ _ => ⟨Int.le_refl 0, Int.le_refl 0⟩)⟩

/-! ## The companion track in detail -/

/-- C11, as stated, fails: the uri node of `bareAudioMediaNode` declares no attribute at all,
so it has no attribute set; `createAudioFromNode` then throws on the lookup of `<xmlattr>`
and `buildMedia` of the node fails, instead of building a track with the defaults. -/
theorem audio_defaults_counterexample :
    bareAudioMediaNode.2.get_child_optional "audio" = some bareAudioChild.2 ∧
    bareAudioChild.2.get_child "uri" = .ok (.mk "c.mp3" []) ∧
    (xlf_node.mk "c.mp3" []).children = [] ∧
    MediaFactory.new .VideoFactory sampleRegion.2 bareAudioMediaNode.2 =
      .ok (MediaFactory.mk .VideoFactory sampleRegion.2
        (xmlattr [("type", "video"), ("duration", "20")]).2 sampleOptions.2
        (some bareAudioChild.2)) ∧
    (MediaFactory.mk .VideoFactory sampleRegion.2
        (xmlattr [("type", "video"), ("duration", "20")]).2 sampleOptions.2
        (some bareAudioChild.2)).createAudioFromNode specEnv 20 =
      .error (.ptree_bad_path "<xmlattr>") ∧
    buildMedia specEnv sampleRegion.2 bareAudioMediaNode.2 =
      .error (.ptree_bad_path "<xmlattr>") :=
  ⟨rfl, rfl, rfl, rfl, rfl, rfl⟩

/-- C11, amended: for a media node with an audio child with a uri node, if the uri node has an
attribute set that declares none of `mute`, `loop` and `volume`, then `mute` reads false and
`createAudioFromNode` returns, for every parent duration, the track with volume `MAX_VOLUME`
and `looped = false`; if the uri node has no attribute set at all, `createAudioFromNode`
throws on the lookup of `<xmlattr>`. -/
theorem audio_defaults (env : Env) (kind : FactoryKind) (parentNode mediaNode : xlf_node)
    (f : MediaFactory) (audioNode uriNode : xlf_node)
    (hf : MediaFactory.new kind parentNode mediaNode = .ok f)
    (ha : mediaNode.get_child_optional "audio" = some audioNode)
    (hu : audioNode.get_child "uri" = .ok uriNode) :
    (∀ attrs, uriNode.get_child "<xmlattr>" = .ok attrs →
      attrs.get_child_optional "mute" = none → attrs.get_child_optional "loop" = none →
      attrs.get_child_optional "volume" = none →
      attrs.get_default env.toBool "mute" false = false ∧
      ∀ parentDuration, f.createAudioFromNode env parentDuration =
        .ok (some { path := env.joinPath env.directory uriNode.data, volume := MAX_VOLUME,
                    looped := false, duration := parentDuration })) ∧
    (uriNode.get_child_optional "<xmlattr>" = none →
      ∀ parentDuration, f.createAudioFromNode env parentDuration =
        .error (.ptree_bad_path "<xmlattr>")) := by
  have hnode : f.m_audioNode = some audioNode := by
    rw [MediaFactory_new_audioNode kind parentNode mediaNode f hf, ha]
  constructor
  · intro attrs hx hmute hloop hvolume
    have h1 : attrs.get_default env.toBool "mute" false = false := by
      simp [xlf_node.get_default, hmute]
    have h2 : attrs.get_default env.toBool "loop" false = false := by
      simp [xlf_node.get_default, hloop]
    have h3 : attrs.get_default env.toInt "volume" MAX_VOLUME = MAX_VOLUME := by
      simp [xlf_node.get_default, hvolume]
    refine ⟨h1, fun parentDuration => ?_⟩
    rw [createAudioFromNode_some env f audioNode uriNode attrs parentDuration hnode hu hx,
      h1, h2, h3]
    rfl
  · intro hx parentDuration
    exact createAudioFromNode_no_attrs env f audioNode uriNode parentDuration hnode hu hx

/-- Witness for C11 amended: the video media whose uri node has the attribute set `id="7"`. -/
theorem audio_defaults_witness :
    (∀ attrs, (xlf_node.mk "d.mp3" [xmlattr [("id", "7")]]).get_child "<xmlattr>" = .ok attrs →
      attrs.get_child_optional "mute" = none → attrs.get_child_optional "loop" = none →
      attrs.get_child_optional "volume" = none →
      attrs.get_default specEnv.toBool "mute" false = false ∧
      ∀ parentDuration,
        (MediaFactory.mk .VideoFactory sampleRegion.2
          (xmlattr [("type", "video"), ("duration", "20")]).2 sampleOptions.2
          (some plainAudioChild.2)).createAudioFromNode specEnv parentDuration =
        .ok (some { path := "resources/d.mp3", volume := MAX_VOLUME,
                    looped := false, duration := parentDuration })) ∧
    ((xlf_node.mk "d.mp3" [xmlattr [("id", "7")]]).get_child_optional "<xmlattr>" = none →
      ∀ parentDuration,
        (MediaFactory.mk .VideoFactory sampleRegion.2
          (xmlattr [("type", "video"), ("duration", "20")]).2 sampleOptions.2
          (some plainAudioChild.2)).createAudioFromNode specEnv parentDuration =
        .error (.ptree_bad_path "<xmlattr>")) :=
  audio_defaults specEnv .VideoFactory sampleRegion.2 plainAudioMediaNode.2
    (MediaFactory.mk .VideoFactory sampleRegion.2
      (xmlattr [("type", "video"), ("duration", "20")]).2 sampleOptions.2
      (some plainAudioChild.2))
    plainAudioChild.2 (.mk "d.mp3" [xmlattr [("id", "7")]]) rfl rfl rfl

/-- C12: whenever `create` returns a media with a companion track, the track's duration is
the duration reported by the media that `doCreate` built, and its path is the resource
directory joined with the text of the uri node of the media node's audio child. -/
theorem companion_duration_and_path (env : Env) (kind : FactoryKind)
    (parentNode mediaNode : xlf_node) (f : MediaFactory) (m : Media) (audio : Audio)
    (hf : MediaFactory.new kind parentNode mediaNode = .ok f)
    (hc : f.create env = .ok m) (hatt : m.attached = some audio) :
    ∃ base audioNode uriNode, f.doCreate env = .ok base ∧
      audio.duration = base.duration ∧ m.duration = base.duration ∧
      mediaNode.get_child_optional "audio" = some audioNode ∧
      audioNode.get_child "uri" = .ok uriNode ∧
      audio.path = env.joinPath env.directory uriNode.data := by
  obtain ⟨base, built, hbase, hbuilt, hm⟩ := MediaFactory_create_ok env f m hc
  have hb : built = some audio := by
    rw [hm] at hatt
    exact hatt
  rw [hb] at hbuilt
  obtain ⟨audioNode, uriNode, attrs, hnode, hu, _, haudio⟩ :=
    createAudioFromNode_ok_some env f base.duration audio hbuilt
  refine ⟨base, audioNode, uriNode, hbase, ?_, ?_, ?_, hu, ?_⟩
  · rw [haudio]
  · rw [hm]
    rfl
  · rw [← MediaFactory_new_audioNode kind parentNode mediaNode f hf, hnode]
  · rw [haudio]

/-- Witness for C12: the image media of the sample region, of duration 10, with the audio
child `a.mp3`. -/
theorem companion_duration_and_path_witness :
    ∃ base audioNode uriNode,
      (MediaFactory.mk .ImageFactory sampleRegion.2 sampleImage.attrs sampleOptions.2
        (some mutedAudioChild.2)).doCreate specEnv = .ok base ∧
      (10 : Int) = base.duration ∧ sampleImage.duration = base.duration ∧
      sampleImageNode.2.get_child_optional "audio" = some audioNode ∧
      audioNode.get_child "uri" = .ok uriNode ∧
      "resources/a.mp3" = specEnv.joinPath specEnv.directory uriNode.data :=
  companion_duration_and_path specEnv .ImageFactory sampleRegion.2 sampleImageNode.2
    (MediaFactory.mk .ImageFactory sampleRegion.2 sampleImage.attrs sampleOptions.2
      (some mutedAudioChild.2))
    sampleImage { path := "resources/a.mp3", volume := 0, looped := false, duration := 10 }
    rfl rfl rfl

/-- C18: for a media node whose audio child is present but has no "uri" child,
`createAudioFromNode` throws on the lookup of the uri node for every parent duration; it
never returns the null result it gives for an absent audio child, and `create` returns no
media: it fails with that exception as soon as `doCreate` has built the media. -/
theorem audio_without_uri_fails (env : Env) (kind : FactoryKind)
    (parentNode mediaNode : xlf_node) (f : MediaFactory) (audioNode : xlf_node)
    (hf : MediaFactory.new kind parentNode mediaNode = .ok f)
    (ha : mediaNode.get_child_optional "audio" = some audioNode)
    (hu : audioNode.get_child_optional "uri" = none) :
    (∀ parentDuration,
      f.createAudioFromNode env parentDuration = .error (.ptree_bad_path "uri")) ∧
    (∀ parentDuration, f.createAudioFromNode env parentDuration ≠ .ok none) ∧
    (∀ m, f.create env ≠ .ok m) ∧
    (∀ base, f.doCreate env = .ok base → f.create env = .error (.ptree_bad_path "uri")) := by
  have hnode : f.m_audioNode = some audioNode := by
    rw [MediaFactory_new_audioNode kind parentNode mediaNode f hf, ha]
  have herr : ∀ parentDuration,
      f.createAudioFromNode env parentDuration = .error (.ptree_bad_path "uri") :=
    fun d => createAudioFromNode_no_uri env f audioNode d hnode hu
  refine ⟨herr, ?_, ?_, ?_⟩
  · intro d h
    rw [herr d] at h
    cases h
  · intro m hm
    obtain ⟨base, audio, _, haudio, _⟩ := MediaFactory_create_ok env f m hm
    rw [herr base.duration] at haudio
    cases haudio
  · intro base hbase
    unfold MediaFactory.create
    simp only [hbase, herr, bind, Except.bind]

/-- Witness for C18: the video media whose audio child is empty. -/
theorem audio_without_uri_fails_witness :
    (∀ parentDuration,
      (MediaFactory.mk .VideoFactory sampleRegion.2
        (xmlattr [("type", "video"), ("duration", "20")]).2 sampleOptions.2
        (some noUriAudioChild.2)).createAudioFromNode specEnv parentDuration =
        .error (.ptree_bad_path "uri")) ∧
    (∀ parentDuration,
      (MediaFactory.mk .VideoFactory sampleRegion.2
        (xmlattr [("type", "video"), ("duration", "20")]).2 sampleOptions.2
        (some noUriAudioChild.2)).createAudioFromNode specEnv parentDuration ≠ .ok none) ∧
    (∀ m, (MediaFactory.mk .VideoFactory sampleRegion.2
        (xmlattr [("type", "video"), ("duration", "20")]).2 sampleOptions.2
        (some noUriAudioChild.2)).create specEnv ≠ .ok m) ∧
    (∀ base, (MediaFactory.mk .VideoFactory sampleRegion.2
        (xmlattr [("type", "video"), ("duration", "20")]).2 sampleOptions.2
        (some noUriAudioChild.2)).doCreate specEnv = .ok base →
      (MediaFactory.mk .VideoFactory sampleRegion.2
        (xmlattr [("type", "video"), ("duration", "20")]).2 sampleOptions.2
        (some noUriAudioChild.2)).create specEnv = .error (.ptree_bad_path "uri")) :=
  audio_without_uri_fails specEnv .VideoFactory sampleRegion.2 noUriMediaNode.2
    (MediaFactory.mk .VideoFactory sampleRegion.2
      (xmlattr [("type", "video"), ("duration", "20")]).2 sampleOptions.2
      (some noUriAudioChild.2))
    noUriAudioChild.2 rfl rfl rfl

/-! ## Layout dimensions and media positions -/

/-- C14: the layout returned by `buildLayout` has the width and height that
`LayoutXlf::width` and `LayoutXlf::height` read from the layout node; its background is
`buildBackground` of the same node, with that same width and height and with the path and
colour that `LayoutXlf::backgroundPath` and `LayoutXlf::backgroundColor` read from the
node. -/
theorem buildLayout_dimensions (env : Env) (layoutNode : xlf_node) (layout : MainLayout)
    (h : buildLayout env layoutNode = .ok layout) :
    env.layoutWidth layoutNode = .ok layout.width ∧
    env.layoutHeight layoutNode = .ok layout.height ∧
    buildBackground env layoutNode = .ok layout.background ∧
    layout.background.width = layout.width ∧
    layout.background.height = layout.height ∧
    env.backgroundPath layoutNode = .ok layout.background.path ∧
    env.backgroundColor layoutNode = .ok layout.background.color := by
  obtain ⟨hw, hh, hb, _⟩ := buildLayout_ok env layoutNode layout h
  obtain ⟨hbw, hbh, hp, hc⟩ := buildBackground_ok env layoutNode layout.background hb
  refine ⟨hw, hh, hb, ?_, ?_, hp, hc⟩
  · rw [hw] at hbw
    exact (Except.ok.inj hbw).symm
  · rw [hh] at hbh
    exact (Except.ok.inj hbh).symm

/-- Witness for C14: the sample layout, 1920 by 1080 with colour `#000` and no path. -/
theorem buildLayout_dimensions_witness :
    specEnv.layoutWidth sampleLayout.2 = .ok 1920 ∧
    specEnv.layoutHeight sampleLayout.2 = .ok 1080 ∧
    buildBackground specEnv sampleLayout.2 =
      .ok { width := 1920, height := 1080, path := "", color := "#000" } ∧
    (1920 : Int) = 1920 ∧ (1080 : Int) = 1080 ∧
    specEnv.backgroundPath sampleLayout.2 = .ok "" ∧
    specEnv.backgroundColor sampleLayout.2 = .ok "#000" :=
  buildLayout_dimensions specEnv sampleLayout.2
    { width := 1920, height := 1080,
      background := { width := 1920, height := 1080, path := "", color := "#000" },
      mediaContainers := [⟨sampleContainer, 10, 5⟩, ⟨negativeContainer, -10, 0⟩] } rfl

/-- C16: when `collectVisibleMedia` returns for a region, the uses of the position visitor
correspond one to one, in order, to the visible items: for each item the visitor was
constructed once from the width and height of that region node and applied to the item's
media, and the stored `(x, y)` is its result. The region's left and top take no part: the
collected sequence and the visitor calls are the same whatever `RegionXlf::left` and
`RegionXlf::top` return. -/
theorem position_resolved_once (env : Env) (containerNode : xlf_node)
    (visible : List MediaWithPos) (calls : List ResolverCall)
    (h : collectVisibleMediaTraced env containerNode = .ok (visible, calls)) :
    List.Forall₂ (Resolved env containerNode) visible calls ∧
    calls.length = visible.length ∧
    (∀ v ∈ visible, ∃ w ht, env.regionWidth containerNode = .ok w ∧
      env.regionHeight containerNode = .ok ht ∧
      v.x = (env.getMediaPosition w ht v.media).1 ∧
      v.y = (env.getMediaPosition w ht v.media).2) ∧
    (∀ left top,
      collectVisibleMediaTraced { env with regionLeft := left, regionTop := top }
        containerNode = .ok (visible, calls)) := by
  obtain ⟨_, built, builtCalls, hout, _, hres⟩ :=
    collectVisibleMediaLoop_ok env containerNode _ _ _ _ h
  have hb : built = visible := by
    have := congrArg Prod.fst hout
    simpa using this.symm
  have hc : builtCalls = calls := by
    have := congrArg Prod.snd hout
    simpa using this.symm
  subst hb
  subst hc
  refine ⟨hres, hres.length_eq.symm, ?_, ?_⟩
  · intro v hv
    obtain ⟨call, _, w, ht, hw, hh, _, hx, hy⟩ := forall₂_exists_right hres v hv
    exact ⟨w, ht, hw, hh, hx, hy⟩
  · intro left top
    unfold collectVisibleMediaTraced
    rw [collectVisibleMediaLoop_env]
    exact h

/-- Witness for C16: the sample region, 100 by 50 and declared at left 10, top 5. -/
theorem position_resolved_once_witness :
    List.Forall₂ (Resolved specEnv sampleRegion.2) sampleVisible sampleCalls ∧
    sampleCalls.length = sampleVisible.length ∧
    (∀ v ∈ sampleVisible, ∃ w ht, specEnv.regionWidth sampleRegion.2 = .ok w ∧
      specEnv.regionHeight sampleRegion.2 = .ok ht ∧
      v.x = (specEnv.getMediaPosition w ht v.media).1 ∧
      v.y = (specEnv.getMediaPosition w ht v.media).2) ∧
    (∀ left top,
      collectVisibleMediaTraced { specEnv with regionLeft := left, regionTop := top }
        sampleRegion.2 = .ok (sampleVisible, sampleCalls)) :=
  position_resolved_once specEnv sampleRegion.2 sampleVisible sampleCalls rfl

/-! ## Failure of a media node and the uniform attachment step -/

/-- C15: if a media child of a region of the layout has no attribute set or no "options"
child, the constructor of every factory throws on that lookup, `buildMedia` of the node
fails, `buildContainer` of its region fails and `buildLayout` of the layout fails: it
returns an exception and no layout, so nothing built from the other regions or media is
returned. -/
theorem missing_options_aborts_build (env : Env) (layoutNode region mediaNode : xlf_node)
    (hr : region ∈ regionChildren layoutNode) (hm : mediaNode ∈ mediaChildren region)
    (hmiss : mediaNode.get_child_optional "<xmlattr>" = none ∨
      mediaNode.get_child_optional "options" = none) :
    (∀ kind parentNode, MediaFactory.new kind parentNode mediaNode =
      .error (.ptree_bad_path
        (if (mediaNode.get_child_optional "<xmlattr>").isNone then "<xmlattr>"
         else "options"))) ∧
    (∃ e, buildMedia env region mediaNode = .error e) ∧
    (∃ e, buildContainer env region = .error e) ∧
    (∃ e, buildLayout env layoutNode = .error e) ∧
    (∀ layout, buildLayout env layoutNode ≠ .ok layout) := by
  have hnew : ∀ kind parentNode, MediaFactory.new kind parentNode mediaNode =
      .error (.ptree_bad_path
        (if (mediaNode.get_child_optional "<xmlattr>").isNone then "<xmlattr>"
         else "options")) :=
    fun kind parentNode => MediaFactory_new_error kind parentNode mediaNode hmiss
  have hmedia : ∀ m, buildMedia env region mediaNode ≠ .ok m := by
    intro m hbuild
    obtain ⟨t, f, _, hf, _⟩ := buildMedia_ok env region mediaNode m hbuild
    rw [hnew] at hf
    cases hf
  have hcontainer : ∀ c, buildContainer env region ≠ .ok c := by
    intro c hc
    obtain ⟨_, _, _, _, hv, hi⟩ := buildContainer_ok env region c hc
    obtain ⟨m, hbuild, _⟩ := collected_media_built env region _ _ hv hi mediaNode hm
    exact hmedia m hbuild
  have hlayout : ∀ layout, buildLayout env layoutNode ≠ .ok layout := by
    intro layout hl
    obtain ⟨_, _, _, hcont⟩ := buildLayout_ok env layoutNode layout hl
    obtain ⟨built, _, hall⟩ := collectContainersLoop_ok env _ _ _ hcont
    obtain ⟨c, _, _, _, hc⟩ := forall₂_exists_right hall region hr
    exact hcontainer c.container hc
  exact ⟨hnew, except_error_of_not_ok _ hmedia, except_error_of_not_ok _ hcontainer,
    except_error_of_not_ok _ hlayout, hlayout⟩

/-- Witness for C15: the layout whose second region holds an image without "options"
child, after a first region that builds. -/
theorem missing_options_aborts_build_witness :
    brokenRegion.2 ∈ regionChildren brokenLayout.2 ∧
    noOptionsNode.2 ∈ mediaChildren brokenRegion.2 ∧
    noOptionsNode.2.get_child_optional "options" = none ∧
    buildLayout specEnv brokenLayout.2 = .error (.ptree_bad_path "options") ∧
    ((∀ kind parentNode, MediaFactory.new kind parentNode noOptionsNode.2 =
      .error (.ptree_bad_path
        (if (noOptionsNode.2.get_child_optional "<xmlattr>").isNone then "<xmlattr>"
         else "options"))) ∧
    (∃ e, buildMedia specEnv brokenRegion.2 noOptionsNode.2 = .error e) ∧
    (∃ e, buildContainer specEnv brokenRegion.2 = .error e) ∧
    (∃ e, buildLayout specEnv brokenLayout.2 = .error e) ∧
    (∀ layout, buildLayout specEnv brokenLayout.2 ≠ .ok layout)) :=
  ⟨List.mem_cons_of_mem _ (List.mem_cons_self _ _),
    List.mem_cons_of_mem _ (List.mem_cons_self _ _), rfl, rfl,
    missing_options_aborts_build specEnv brokenLayout.2 brokenRegion.2 noOptionsNode.2
      (List.mem_cons_of_mem _ (List.mem_cons_self _ _))
      (List.mem_cons_of_mem _ (List.mem_cons_self _ _)) (Or.inr rfl)⟩

/-- C17: for a media node with an audio child that has a uri node with an attribute set, and
for a factory of any of the four kinds constructed from it, every media that `create`
returns carries the one track that `createAudioFromNode` builds for the media's duration,
and `create` returns as soon as `doCreate` does. In particular, when the node itself
declares the audio type and is a media child of a region whose invisible collection
returns, the media built from it by `AudioFactory` is in the invisible sequence and carries
a companion track. -/
theorem companion_attached_for_every_kind (env : Env) (kind : FactoryKind)
    (parentNode mediaNode : xlf_node) (f : MediaFactory) (audioNode uriNode attrs : xlf_node)
    (hf : MediaFactory.new kind parentNode mediaNode = .ok f)
    (ha : mediaNode.get_child_optional "audio" = some audioNode)
    (hu : audioNode.get_child "uri" = .ok uriNode)
    (hx : uriNode.get_child "<xmlattr>" = .ok attrs) :
    (∀ m, f.create env = .ok m → m.kind = kind ∧ ∃ track,
      f.createAudioFromNode env m.duration = .ok (some track) ∧ m.attached = some track) ∧
    (∀ duration, env.doCreate f.kind f.m_parentNode f.m_attrs f.m_options = .ok duration →
      ∃ m track, f.create env = .ok m ∧ m.attached = some track) ∧
    (∀ invisible, env.mediaType mediaNode = .ok MediaXlf.AudioType →
      mediaNode ∈ mediaChildren parentNode →
      collectInvisibleMedia env parentNode = .ok invisible →
      ∃ m ∈ invisible, buildMedia env parentNode mediaNode = .ok m ∧
        m.kind = .AudioFactory ∧ ∃ track, m.attached = some track) := by
  have hsome : ∀ (g : MediaFactory), g.m_audioNode = some audioNode →
      ∀ m, g.create env = .ok m → ∃ track,
        g.createAudioFromNode env m.duration = .ok (some track) ∧ m.attached = some track := by
    intro g hg m hm
    obtain ⟨base, audio, _, haudio, hmeq⟩ := MediaFactory_create_ok env g m hm
    have hdur : m.duration = base.duration := by
      rw [hmeq]
      rfl
    have hs := createAudioFromNode_some env g audioNode uriNode attrs base.duration hg hu hx
    rw [hs] at haudio
    rw [hdur]
    refine ⟨_, hs, ?_⟩
    rw [hmeq, ← Except.ok.inj haudio]
    rfl
  have hnode : f.m_audioNode = some audioNode := by
    rw [MediaFactory_new_audioNode kind parentNode mediaNode f hf, ha]
  refine ⟨?_, ?_, ?_⟩
  · intro m hm
    refine ⟨?_, hsome f hnode m hm⟩
    rw [MediaFactory_create_kind env f m hm, MediaFactory_new_kind kind parentNode mediaNode f hf]
  · intro duration hd
    have hcreate : f.create env =
        .ok ((Media.mk f.kind f.m_parentNode f.m_attrs f.m_options duration none).attachMedia
          (some { path := env.joinPath env.directory uriNode.data,
                  volume := if attrs.get_default env.toBool "mute" false then MIN_VOLUME
                            else attrs.get_default env.toInt "volume" MAX_VOLUME,
                  looped := attrs.get_default env.toBool "loop" false,
                  duration := duration })) := by
      unfold MediaFactory.create MediaFactory.doCreate
      simp only [hd, bind, Except.bind, pure, Except.pure]
      rw [createAudioFromNode_some env f audioNode uriNode attrs duration hnode hu hx]
    exact ⟨_, _, hcreate, rfl⟩
  · intro invisible hty hmem hi
    obtain ⟨_, builtInv, houtInv, hinv⟩ := collectInvisibleMediaLoop_ok env parentNode _ _ _ hi
    have hbi : builtInv = invisible := by simpa using houtInv.symm
    subst hbi
    have haud : isAudioNode env mediaNode = true := by simp [isAudioNode, hty]
    obtain ⟨m, hm, hbuild⟩ :=
      forall₂_exists_right hinv mediaNode (List.mem_filter.mpr ⟨hmem, haud⟩)
    obtain ⟨t, g, ht, hg, hcreate⟩ := buildMedia_ok env parentNode mediaNode m hbuild
    have hgnode : g.m_audioNode = some audioNode := by
      rw [MediaFactory_new_audioNode _ parentNode mediaNode g hg, ha]
    obtain ⟨track, _, htrack⟩ := hsome g hgnode m hcreate
    exact ⟨m, hm, hbuild,
      (buildMedia_kind_audio_iff env parentNode mediaNode m _ hty hbuild).mpr rfl,
      track, htrack⟩

/-- Witness for C17: the audio media with an audio child of its own, second media of
`companionRegion`. -/
theorem companion_attached_for_every_kind_witness :
    collectInvisibleMedia specEnv companionRegion.2 = .ok [companionAudio] ∧
    ((∀ m, (MediaFactory.mk .AudioFactory companionRegion.2 companionAudio.attrs
        sampleOptions.2 (some plainAudioChild.2)).create specEnv = .ok m →
      m.kind = .AudioFactory ∧ ∃ track,
        (MediaFactory.mk .AudioFactory companionRegion.2 companionAudio.attrs
          sampleOptions.2 (some plainAudioChild.2)).createAudioFromNode specEnv m.duration =
          .ok (some track) ∧ m.attached = some track) ∧
    (∀ duration, specEnv.doCreate .AudioFactory companionRegion.2 companionAudio.attrs
        sampleOptions.2 = .ok duration →
      ∃ m track, (MediaFactory.mk .AudioFactory companionRegion.2 companionAudio.attrs
        sampleOptions.2 (some plainAudioChild.2)).create specEnv = .ok m ∧
        m.attached = some track) ∧
    (∀ invisible, specEnv.mediaType audioWithCompanionNode.2 = .ok MediaXlf.AudioType →
      audioWithCompanionNode.2 ∈ mediaChildren companionRegion.2 →
      collectInvisibleMedia specEnv companionRegion.2 = .ok invisible →
      ∃ m ∈ invisible, buildMedia specEnv companionRegion.2 audioWithCompanionNode.2 = .ok m ∧
        m.kind = .AudioFactory ∧ ∃ track, m.attached = some track)) :=
  ⟨rfl, companion_attached_for_every_kind specEnv .AudioFactory companionRegion.2
    audioWithCompanionNode.2
    (MediaFactory.mk .AudioFactory companionRegion.2 companionAudio.attrs sampleOptions.2
      (some plainAudioChild.2))
    plainAudioChild.2 (.mk "d.mp3" [xmlattr [("id", "7")]]) (xmlattr [("id", "7")]).2
    rfl rfl rfl rfl⟩

/-! ## Determinism -/

/-- C13: two builds of the same document with the same collaborators have one and the same
result. Moreover the structure of the result depends on the collaborators only through how
they read the document: a second build in which `doCreate` succeeds or throws as in the
first but reports other durations, and in which the visitor computes other positions, fails
with the same exception or returns a layout of the same shape, that is with the same
dimensions and background, the same containers in the same order at the same placements,
and in each the same visible and invisible media in the same order, from the same factories
and nodes, with a companion (of the same path, volume and loop flag) or without one
alike. -/
theorem build_twice_same_result (env : Env)
    (doCreate2 : FactoryKind → xlf_node → xlf_node → xlf_node → Except XlfError Int)
    (position2 : Int → Int → Media → Int × Int) (tree : xlf_node)
    (h : ∀ k p a o,
      (fun _ => ()) <$> env.doCreate k p a o = (fun _ => ()) <$> doCreate2 k p a o) :
    (∀ first second, buildLayoutWithChildren env tree = first →
      buildLayoutWithChildren env tree = second → first = second) ∧
    MainLayout.shape <$> buildLayoutWithChildren env tree =
      MainLayout.shape <$> buildLayoutWithChildren
        { env with doCreate := doCreate2, getMediaPosition := position2 } tree := by
  constructor
  · intro first second h1 h2
    rw [← h1, ← h2]
  · exact exceptRel_map_eq MainLayout.shape
      (buildLayoutWithChildren_shape env doCreate2 position2 h tree)

/-- Witness for C13: the sample document, built a second time with every duration reported
as 99 and every media placed at the container's size. -/
theorem build_twice_same_result_witness :
    (buildLayoutWithChildren
      { specEnv with doCreate := fun _ _ _ _ => .ok 99,
                     getMediaPosition := fun w ht _ => (w, ht) }
      sampleDocument).toOption.map
        (fun l => l.mediaContainers.map
          (fun c => c.container.visibleMedia.map (fun v => (v.media.duration, v.x, v.y)))) =
      some [[(99, 100, 50), (99, 100, 50)], []] ∧
    (buildLayoutWithChildren specEnv sampleDocument).toOption.map
        (fun l => l.mediaContainers.map
          (fun c => c.container.visibleMedia.map (fun v => (v.media.duration, v.x, v.y)))) =
      some [[(10, 0, 0), (0, 0, 0)], []] ∧
    (∀ first second, buildLayoutWithChildren specEnv sampleDocument = first →
      buildLayoutWithChildren specEnv sampleDocument = second → first = second) ∧
    MainLayout.shape <$> buildLayoutWithChildren specEnv sampleDocument =
      MainLayout.shape <$> buildLayoutWithChildren
        { specEnv with doCreate := fun _ _ _ _ => .ok 99,
                       getMediaPosition := fun w ht _ => (w, ht) } sampleDocument :=
  ⟨rfl, rfl, build_twice_same_result specEnv (fun _ _ _ _ => .ok 99) (fun w ht _ => (w, ht))
    sampleDocument (fun _ _ _ _ => rfl)⟩

end XiboLayout
